import Mathlib

/-!
Verification of the system-dynamics notebook apps (stock-and-flow models with
inline fixed-step Euler integration).

Every app's `run_simulation` has the same shape: starting from hard-coded
initial stock values at `t = 0`, while `t <= t_end + dt/2` it computes the
flows and auxiliary variables from the current stocks and parameters (in
dependency order), appends a row recording `t` and all current values, applies
the Euler update `stock += dt * net_rate` followed by the clamp
`stock = max(stock, floor)` to each stock, and advances `t += dt`.

The generic loop is embedded twice: `SD.whileLoop` mirrors the source's
`while` loop literally (with the termination measure made explicit), and
`SD.loop` is the equivalent fuel-indexed form used for computation; the two
agree for `dt > 0` (`SD.whileLoop_eq_loop`).  Each app then supplies its
`Params`, `State` (the stocks), `Computed` (the flows and auxiliaries), the
`compute` function (a literal translation of the dependency-ordered
assignments), the clamped Euler `update`, and `run`.

Numbers are embedded as exact rationals (`ℚ`); Python's float arithmetic is
modelled exactly, and `max(x, 1e-6)` guards become `max x (1/1000000)`.
Python's raising float division is total in `ℚ` (`x / 0 = 0`), so
division-by-zero claims are stated about the denominators themselves.
The `ai_negative_growth` app's computed-variable block unconditionally raises
a `TypeError` (it calls a dict literal), so that app is embedded with an
`Except`-valued compute (`NegGrowth.computeE`) and loop (`SD.loopE`).
-/

namespace SD

/-- One row of the result table: the time, the stock values at that time
(pre-update), and the flow/auxiliary values computed from them. -/
abbrev Row (σ κ : Type) : Type := ℚ × σ × κ

/-- The simulation loop with an explicit iteration count `n`: at each
iteration it records a row `(t, s, compute s)` and advances the state by the
Euler update and the time by `dt`. -/
def loop {σ κ : Type} (compute : σ → κ) (update : σ → κ → σ) (dt : ℚ) :
    ℕ → ℚ → σ → List (Row σ κ)
  | 0, _, _ => []
  | n + 1, t, s =>
      (t, s, compute s) :: loop compute update dt n (t + dt) (update s (compute s))

/-- The source's `while t <= t_end + dt/2` loop, embedded literally (guarded
by `0 < dt`, under which the Python loop terminates). -/
def whileLoop {σ κ : Type} (compute : σ → κ) (update : σ → κ → σ)
    (dt tEnd : ℚ) (t : ℚ) (s : σ) : List (Row σ κ) :=
  if h : 0 < dt ∧ t ≤ tEnd + dt / 2 then
    (t, s, compute s) :: whileLoop compute update dt tEnd (t + dt) (update s (compute s))
  else []
termination_by (⌊(tEnd + dt / 2 - t) / dt⌋ + 1).toNat
decreasing_by
  obtain ⟨hdt, hle⟩ := h
  have hX : 0 ≤ (tEnd + dt / 2 - t) / dt :=
    div_nonneg (by linarith) hdt.le
  have hfl : 0 ≤ ⌊(tEnd + dt / 2 - t) / dt⌋ := Int.floor_nonneg.mpr hX
  have harg : (tEnd + dt / 2 - (t + dt)) / dt = (tEnd + dt / 2 - t) / dt - 1 := by
    field_simp
    ring
  have hsub : ⌊(tEnd + dt / 2 - (t + dt)) / dt⌋ = ⌊(tEnd + dt / 2 - t) / dt⌋ - 1 := by
    rw [harg]
    exact_mod_cast Int.floor_sub_int ((tEnd + dt / 2 - t) / dt) 1
  rw [hsub]
  omega

/-- The number of rows the loop produces from `t = 0`:
`⌊(t_end + dt/2) / dt⌋ + 1` (clamped to `ℕ`). -/
def numRows (dt tEnd : ℚ) : ℕ := (⌊(tEnd + dt / 2) / dt⌋ + 1).toNat

/-- The state-advancing step: compute the flows, then apply the Euler update. -/
def stepf {σ κ : Type} (compute : σ → κ) (update : σ → κ → σ) : σ → σ :=
  fun s => update s (compute s)

/-- The `Except`-valued simulation loop, for an app whose computed-variable
block can raise: the first raise aborts the run with no rows returned. -/
def loopE {σ κ : Type} (computeE : σ → Except String κ) (update : σ → κ → σ)
    (dt : ℚ) : ℕ → ℚ → σ → Except String (List (Row σ κ))
  | 0, _, _ => .ok []
  | n + 1, t, s => do
      let c ← computeE s
      let rest ← loopE computeE update dt n (t + dt) (update s c)
      .ok ((t, s, c) :: rest)

end SD

/-! ## `ai_agent_disruption` (src/apps/ai_agent_disruption.py) -/

namespace AiAgent

/-- The 12 slider parameters of `ai_agent_disruption`. -/
structure Params where
  base_capability_growth : ℚ
  base_compute_growth : ℚ
  capability_threshold : ℚ
  compute_cost_per_unit : ℚ
  compute_per_user : ℚ
  depreciation_rate : ℚ
  displacement_rate : ℚ
  imitation_rate : ℚ
  innovation_rate : ℚ
  potential_market : ℚ
  reinvestment_fraction : ℚ
  revenue_per_user : ℚ

/-- The 4 stocks. -/
structure State where
  task_horizon : ℚ
  agent_users : ℚ
  saas_revenue : ℚ
  gpu_compute : ℚ

/-- The flows and computed variables recorded in each row. -/
structure Computed where
  capability_growth : ℚ
  compute_depreciation : ℚ
  adoption_fraction : ℚ
  remaining_market : ℚ
  ai_revenue : ℚ
  capability_readiness : ℚ
  compute_demand : ℚ
  compute_investment : ℚ
  revenue_displacement : ℚ
  compute_availability : ℚ
  new_adoptions : ℚ

/-- Initial stock values (`task_horizon = 1.0`, `agent_users = 50.0`,
`saas_revenue = 300.0`, `gpu_compute = 100.0`). -/
def init : State := ⟨1, 50, 300, 100⟩

/-- Flows and computed variables, in the source's dependency order. -/
def compute (p : Params) (s : State) : Computed :=
  let capability_growth := s.task_horizon * p.base_capability_growth * s.gpu_compute / 100
  let compute_depreciation := s.gpu_compute * p.depreciation_rate
  let adoption_fraction := s.agent_users / p.potential_market
  let remaining_market := p.potential_market - s.agent_users
  let ai_revenue := s.agent_users * p.revenue_per_user / 1000
  let capability_readiness := s.task_horizon / (s.task_horizon + p.capability_threshold)
  let compute_demand := s.agent_users * p.compute_per_user
  let compute_investment := p.base_compute_growth + ai_revenue * p.reinvestment_fraction / p.compute_cost_per_unit
  let revenue_displacement := s.saas_revenue * p.displacement_rate * adoption_fraction * capability_readiness
  let compute_availability := s.gpu_compute / (compute_demand + s.gpu_compute)
  let new_adoptions := (p.innovation_rate + p.imitation_rate * adoption_fraction) * remaining_market * capability_readiness * compute_availability
  ⟨capability_growth, compute_depreciation, adoption_fraction, remaining_market,
   ai_revenue, capability_readiness, compute_demand, compute_investment,
   revenue_displacement, compute_availability, new_adoptions⟩

/-- Euler integration with the per-stock clamps. -/
def update (_p : Params) (dt : ℚ) (s : State) (c : Computed) : State where
  task_horizon := max (s.task_horizon + dt * c.capability_growth) 0
  agent_users := max (s.agent_users + dt * c.new_adoptions) 0
  saas_revenue := max (s.saas_revenue + dt * (0 - c.revenue_displacement)) 0
  gpu_compute := max (s.gpu_compute + dt * (c.compute_investment - c.compute_depreciation)) 0

/-- `run_simulation` of `ai_agent_disruption`. -/
def run (p : Params) (dt tEnd : ℚ) : List (SD.Row State Computed) :=
  SD.loop (compute p) (update p dt) dt (SD.numRows dt tEnd) 0 init

/-- The `while`-loop form of `run`. -/
def runW (p : Params) (dt tEnd : ℚ) : List (SD.Row State Computed) :=
  SD.whileLoop (compute p) (update p dt) dt tEnd 0 init

/-- The slider ranges of the 12 parameters. -/
def InRange (p : Params) : Prop :=
  3/10 ≤ p.base_capability_growth ∧ p.base_capability_growth ≤ 3 ∧
  0 ≤ p.base_compute_growth ∧ p.base_compute_growth ≤ 40 ∧
  1 ≤ p.capability_threshold ∧ p.capability_threshold ≤ 16 ∧
  1/10 ≤ p.compute_cost_per_unit ∧ p.compute_cost_per_unit ≤ 2 ∧
  1/10 ≤ p.compute_per_user ∧ p.compute_per_user ≤ 3 ∧
  1/20 ≤ p.depreciation_rate ∧ p.depreciation_rate ≤ 3/10 ∧
  1/100 ≤ p.displacement_rate ∧ p.displacement_rate ≤ 1/4 ∧
  1/20 ≤ p.imitation_rate ∧ p.imitation_rate ≤ 3/5 ∧
  1/1000 ≤ p.innovation_rate ∧ p.innovation_rate ≤ 1/20 ∧
  100 ≤ p.potential_market ∧ p.potential_market ≤ 1000 ∧
  1/10 ≤ p.reinvestment_fraction ∧ p.reinvestment_fraction ≤ 9/10 ∧
  50 ≤ p.revenue_per_user ∧ p.revenue_per_user ≤ 600

/-- The default slider values. -/
def defaults : Params :=
  ⟨12/10, 10, 4, 1/2, 1/2, 15/100, 8/100, 1/4, 1/100, 500, 1/2, 200⟩

/-- State invariant of `ai_agent_disruption` for slider-range parameters:
`task_horizon` never falls below its initial value 1, the other stocks stay
at or above their floors, and `agent_users` never exceeds `3/2` of
`potential_market` (the worst overshoot of the Bass adoption step). -/
def Inv (p : Params) (s : State) : Prop :=
  1 ≤ s.task_horizon ∧ 0 ≤ s.agent_users ∧ 0 ≤ s.saas_revenue ∧
  0 ≤ s.gpu_compute ∧ s.agent_users ≤ 3/2 * p.potential_market

end AiAgent

/-! ## `ai_capex_dynamics` (src/apps/ai_capex_dynamics.py) -/

namespace AiCapex

/-- The 10 slider parameters of `ai_capex_dynamics`. -/
structure Params where
  base_capex_rate : ℚ
  base_hiring_rate : ℚ
  base_tech_workforce : ℚ
  deployment_lag : ℚ
  displacement_intensity : ℚ
  expected_roi : ℚ
  infrastructure_life : ℚ
  reference_valuation : ℚ
  revenue_per_capacity : ℚ
  valuation_sensitivity : ℚ

/-- The 4 stocks. -/
structure State where
  deployment_pipeline : ℚ
  ai_infrastructure : ℚ
  market_cap : ℚ
  tech_employment : ℚ

/-- The flows and computed variables recorded in each row. -/
structure Computed where
  new_capex : ℚ
  capacity_deployed : ℚ
  capacity_retired : ℚ
  tech_hiring : ℚ
  job_displacement : ℚ
  ai_revenue : ℚ
  employment_ratio : ℚ
  actual_roi : ℚ
  pe_ratio : ℚ
  returns_gap : ℚ
  valuation_adjustment : ℚ

/-- Initial stock values (400.0, 500.0, 15.0, 6.0). -/
def init : State := ⟨400, 500, 15, 6⟩

/-- Flows and computed variables, in the source's dependency order. -/
def compute (p : Params) (s : State) : Computed :=
  let new_capex := p.base_capex_rate * s.market_cap / p.reference_valuation
  let capacity_deployed := s.deployment_pipeline / p.deployment_lag
  let capacity_retired := s.ai_infrastructure / p.infrastructure_life
  let tech_hiring := s.tech_employment * p.base_hiring_rate
  let job_displacement := s.ai_infrastructure * p.displacement_intensity
  let ai_revenue := s.ai_infrastructure * p.revenue_per_capacity * s.tech_employment / p.base_tech_workforce
  let employment_ratio := s.tech_employment / p.base_tech_workforce
  let actual_roi := ai_revenue / max s.ai_infrastructure (1/1000000)
  let pe_ratio := s.market_cap * 1000 / max ai_revenue (1/1000000)
  let returns_gap := actual_roi - p.expected_roi
  let valuation_adjustment := s.market_cap * p.valuation_sensitivity * returns_gap
  ⟨new_capex, capacity_deployed, capacity_retired, tech_hiring, job_displacement,
   ai_revenue, employment_ratio, actual_roi, pe_ratio, returns_gap, valuation_adjustment⟩

/-- Euler integration with the per-stock clamps (`market_cap` floors at 1). -/
def update (_p : Params) (dt : ℚ) (s : State) (c : Computed) : State where
  deployment_pipeline := max (s.deployment_pipeline + dt * (c.new_capex - c.capacity_deployed)) 0
  ai_infrastructure := max (s.ai_infrastructure + dt * (c.capacity_deployed - c.capacity_retired)) 0
  market_cap := max (s.market_cap + dt * c.valuation_adjustment) 1
  tech_employment := max (s.tech_employment + dt * (c.tech_hiring - c.job_displacement)) 0

/-- `run_simulation` of `ai_capex_dynamics`. -/
def run (p : Params) (dt tEnd : ℚ) : List (SD.Row State Computed) :=
  SD.loop (compute p) (update p dt) dt (SD.numRows dt tEnd) 0 init

/-- The `while`-loop form of `run`. -/
def runW (p : Params) (dt tEnd : ℚ) : List (SD.Row State Computed) :=
  SD.whileLoop (compute p) (update p dt) dt tEnd 0 init

/-- The slider ranges of the 10 parameters. -/
def InRange (p : Params) : Prop :=
  50 ≤ p.base_capex_rate ∧ p.base_capex_rate ≤ 500 ∧
  1/100 ≤ p.base_hiring_rate ∧ p.base_hiring_rate ≤ 1/10 ∧
  4 ≤ p.base_tech_workforce ∧ p.base_tech_workforce ≤ 10 ∧
  2 ≤ p.deployment_lag ∧ p.deployment_lag ≤ 7 ∧
  1/5000 ≤ p.displacement_intensity ∧ p.displacement_intensity ≤ 3/1000 ∧
  1/20 ≤ p.expected_roi ∧ p.expected_roi ≤ 2/5 ∧
  5 ≤ p.infrastructure_life ∧ p.infrastructure_life ≤ 15 ∧
  5 ≤ p.reference_valuation ∧ p.reference_valuation ≤ 30 ∧
  1/20 ≤ p.revenue_per_capacity ∧ p.revenue_per_capacity ≤ 2/5 ∧
  1/20 ≤ p.valuation_sensitivity ∧ p.valuation_sensitivity ≤ 4/5

/-- The default slider values. -/
def defaults : Params :=
  ⟨200, 1/20, 6, 4, 1/1000, 1/5, 8, 15, 15/100, 3/10⟩

end AiCapex

/-! ## `silver_supply_dynamics` (src/apps/silver_supply_dynamics.py) -/

namespace Silver

/-- The 12 slider parameters of `silver_supply_dynamics`. -/
structure Params where
  base_industrial_demand : ℚ
  china_export_fraction : ℚ
  geopolitical_pressure : ℚ
  institutional_dampening : ℚ
  price_adjustment_speed : ℚ
  reference_inventory : ℚ
  restriction_rate : ℚ
  retail_buy_intensity : ℚ
  sentiment_decay_rate : ℚ
  social_media_amplifier : ℚ
  solar_demand_growth : ℚ
  western_supply_base : ℚ

/-- The 5 stocks. -/
structure State where
  warehouse_inventory : ℚ
  retail_holdings : ℚ
  silver_price : ℚ
  chinese_export_capacity : ℚ
  retail_sentiment : ℚ

/-- The flows and computed variables recorded in each row. -/
structure Computed where
  western_supply : ℚ
  industrial_demand : ℚ
  net_retail_flow : ℚ
  chinese_export_flow : ℚ
  export_restriction : ℚ
  inventory_ratio : ℚ
  effective_amplification : ℚ
  sentiment_decay : ℚ
  demand_supply_pressure : ℚ
  price_change : ℚ
  price_momentum : ℚ
  sentiment_change : ℚ
  institutional_edge : ℚ

/-- Initial stock values (300.0, 200.0, 30.0, 80.0, 0.3). -/
def init : State := ⟨300, 200, 30, 80, 3/10⟩

/-- Flows and computed variables, in the source's dependency order. -/
def compute (p : Params) (s : State) : Computed :=
  let western_supply := p.western_supply_base
  let industrial_demand := p.base_industrial_demand + p.solar_demand_growth
  let net_retail_flow := p.retail_buy_intensity * s.retail_sentiment * s.warehouse_inventory
  let chinese_export_flow := s.chinese_export_capacity * p.china_export_fraction
  let export_restriction := s.chinese_export_capacity * p.restriction_rate * p.geopolitical_pressure
  let inventory_ratio := s.warehouse_inventory / p.reference_inventory
  let effective_amplification := p.social_media_amplifier - p.institutional_dampening
  let sentiment_decay := s.retail_sentiment * p.sentiment_decay_rate
  let demand_supply_pressure := 1 - inventory_ratio
  let price_change := s.silver_price * p.price_adjustment_speed * demand_supply_pressure
  let price_momentum := price_change / max s.silver_price (1/1000000)
  let sentiment_change := effective_amplification * price_momentum - sentiment_decay
  let institutional_edge := demand_supply_pressure - price_momentum
  ⟨western_supply, industrial_demand, net_retail_flow, chinese_export_flow,
   export_restriction, inventory_ratio, effective_amplification, sentiment_decay,
   demand_supply_pressure, price_change, price_momentum, sentiment_change,
   institutional_edge⟩

/-- Euler integration with the per-stock clamps (floors 10, 0, 5, 0, 0.01). -/
def update (_p : Params) (dt : ℚ) (s : State) (c : Computed) : State where
  warehouse_inventory := max (s.warehouse_inventory + dt * (c.western_supply + c.chinese_export_flow - c.industrial_demand - c.net_retail_flow)) 10
  retail_holdings := max (s.retail_holdings + dt * c.net_retail_flow) 0
  silver_price := max (s.silver_price + dt * c.price_change) 5
  chinese_export_capacity := max (s.chinese_export_capacity + dt * (0 - c.export_restriction)) 0
  retail_sentiment := max (s.retail_sentiment + dt * c.sentiment_change) (1/100)

/-- `run_simulation` of `silver_supply_dynamics`. -/
def run (p : Params) (dt tEnd : ℚ) : List (SD.Row State Computed) :=
  SD.loop (compute p) (update p dt) dt (SD.numRows dt tEnd) 0 init

/-- The `while`-loop form of `run`. -/
def runW (p : Params) (dt tEnd : ℚ) : List (SD.Row State Computed) :=
  SD.whileLoop (compute p) (update p dt) dt tEnd 0 init

/-- The slider ranges of the 12 parameters. -/
def InRange (p : Params) : Prop :=
  400 ≤ p.base_industrial_demand ∧ p.base_industrial_demand ≤ 650 ∧
  1/5 ≤ p.china_export_fraction ∧ p.china_export_fraction ≤ 1 ∧
  1/2 ≤ p.geopolitical_pressure ∧ p.geopolitical_pressure ≤ 3 ∧
  0 ≤ p.institutional_dampening ∧ p.institutional_dampening ≤ 5/2 ∧
  1/10 ≤ p.price_adjustment_speed ∧ p.price_adjustment_speed ≤ 3/2 ∧
  100 ≤ p.reference_inventory ∧ p.reference_inventory ≤ 500 ∧
  0 ≤ p.restriction_rate ∧ p.restriction_rate ≤ 3/20 ∧
  1/20 ≤ p.retail_buy_intensity ∧ p.retail_buy_intensity ≤ 2/5 ∧
  1/10 ≤ p.sentiment_decay_rate ∧ p.sentiment_decay_rate ≤ 1 ∧
  1 ≤ p.social_media_amplifier ∧ p.social_media_amplifier ≤ 8 ∧
  100 ≤ p.solar_demand_growth ∧ p.solar_demand_growth ≤ 400 ∧
  500 ≤ p.western_supply_base ∧ p.western_supply_base ≤ 800

/-- The default slider values. -/
def defaults : Params :=
  ⟨500, 4/5, 3/2, 1, 1/2, 300, 3/100, 3/20, 2/5, 3, 200, 640⟩

end Silver

/-! ## `sodium_battery_energy` (src/apps/sodium_battery_energy.py) -/

namespace SodiumBattery

/-- The 11 slider parameters of `sodium_battery_energy`. -/
structure Params where
  baseline_growth_rate : ℚ
  battery_lifetime : ℚ
  capacity_utilization : ℚ
  coal_base_price : ℚ
  coal_retirement_rate : ℚ
  cost_decline_rate : ℚ
  discharge_hours : ℚ
  gas_base_price : ℚ
  gas_retirement_rate : ℚ
  investment_budget : ℚ
  round_trip_efficiency : ℚ

/-- The 5 stocks. -/
structure State where
  installed_capacity : ℚ
  unit_cost : ℚ
  total_demand : ℚ
  gas_generation : ℚ
  coal_generation : ℚ

/-- The flows and computed variables recorded in each row. -/
structure Computed where
  new_installations : ℚ
  retirements : ℚ
  cost_reduction : ℚ
  demand_growth : ℚ
  dispatchable_power : ℚ
  cost_per_kwh : ℚ
  gas_price : ℚ
  coal_price : ℚ
  net_peak_demand : ℚ
  storage_penetration : ℚ
  gas_displaced : ℚ
  coal_displaced : ℚ

/-- Initial stock values (100.0, 0.08, 5000.0, 1500.0, 2000.0). -/
def init : State := ⟨100, 8/100, 5000, 1500, 2000⟩

/-- Flows and computed variables, in the source's dependency order. -/
def compute (p : Params) (s : State) : Computed :=
  let new_installations := p.investment_budget / max s.unit_cost (1/1000000)
  let retirements := s.installed_capacity / p.battery_lifetime
  let cost_reduction := s.unit_cost * p.cost_decline_rate
  let demand_growth := s.total_demand * p.baseline_growth_rate
  let dispatchable_power := s.installed_capacity * p.round_trip_efficiency * p.capacity_utilization / p.discharge_hours
  let cost_per_kwh := s.unit_cost * 1000
  let gas_price := p.gas_base_price * s.gas_generation / 1500
  let coal_price := p.coal_base_price * s.coal_generation / 2000
  let net_peak_demand := s.total_demand - dispatchable_power
  let storage_penetration := dispatchable_power / max s.total_demand (1/1000000)
  let gas_displaced := s.gas_generation * storage_penetration * p.gas_retirement_rate
  let coal_displaced := s.coal_generation * storage_penetration * p.coal_retirement_rate
  ⟨new_installations, retirements, cost_reduction, demand_growth, dispatchable_power,
   cost_per_kwh, gas_price, coal_price, net_peak_demand, storage_penetration,
   gas_displaced, coal_displaced⟩

/-- Euler integration with the per-stock clamps (`unit_cost` floors at 0.001). -/
def update (_p : Params) (dt : ℚ) (s : State) (c : Computed) : State where
  installed_capacity := max (s.installed_capacity + dt * (c.new_installations - c.retirements)) 0
  unit_cost := max (s.unit_cost + dt * (0 - c.cost_reduction)) (1/1000)
  total_demand := max (s.total_demand + dt * c.demand_growth) 0
  gas_generation := max (s.gas_generation + dt * (0 - c.gas_displaced)) 0
  coal_generation := max (s.coal_generation + dt * (0 - c.coal_displaced)) 0

/-- `run_simulation` of `sodium_battery_energy`. -/
def run (p : Params) (dt tEnd : ℚ) : List (SD.Row State Computed) :=
  SD.loop (compute p) (update p dt) dt (SD.numRows dt tEnd) 0 init

/-- The `while`-loop form of `run`. -/
def runW (p : Params) (dt tEnd : ℚ) : List (SD.Row State Computed) :=
  SD.whileLoop (compute p) (update p dt) dt tEnd 0 init

/-- The slider ranges of the 11 parameters. -/
def InRange (p : Params) : Prop :=
  0 ≤ p.baseline_growth_rate ∧ p.baseline_growth_rate ≤ 1/10 ∧
  5 ≤ p.battery_lifetime ∧ p.battery_lifetime ≤ 30 ∧
  3/10 ≤ p.capacity_utilization ∧ p.capacity_utilization ≤ 19/20 ∧
  20 ≤ p.coal_base_price ∧ p.coal_base_price ≤ 200 ∧
  1/100 ≤ p.coal_retirement_rate ∧ p.coal_retirement_rate ≤ 1/10 ∧
  0 ≤ p.cost_decline_rate ∧ p.cost_decline_rate ≤ 1/5 ∧
  1 ≤ p.discharge_hours ∧ p.discharge_hours ≤ 12 ∧
  1 ≤ p.gas_base_price ∧ p.gas_base_price ≤ 15 ∧
  1/100 ≤ p.gas_retirement_rate ∧ p.gas_retirement_rate ≤ 3/20 ∧
  5 ≤ p.investment_budget ∧ p.investment_budget ≤ 500 ∧
  1/2 ≤ p.round_trip_efficiency ∧ p.round_trip_efficiency ≤ 99/100

/-- The default slider values. -/
def defaults : Params :=
  ⟨1/50, 15, 7/10, 60, 3/100, 2/25, 4, 4, 1/20, 50, 17/20⟩

end SodiumBattery

/-! ## `solar_ai_power` (src/apps/solar_ai_power.py) -/

namespace SolarAi

/-- The 11 slider parameters of `solar_ai_power`. -/
structure Params where
  battery_efficiency : ℚ
  battery_lifetime : ℚ
  capacity_factor : ℚ
  connection_rate : ℚ
  cost_learning_rate : ℚ
  demand_growth_rate : ℚ
  discharge_hours : ℚ
  panel_lifetime : ℚ
  solar_investment : ℚ
  storage_investment : ℚ
  storage_unit_cost : ℚ

/-- The 5 stocks. -/
structure State where
  solar_capacity : ℚ
  data_center_demand : ℚ
  solar_cost : ℚ
  battery_storage : ℚ
  grid_queue : ℚ

/-- The flows and computed variables recorded in each row. -/
structure Computed where
  project_submissions : ℚ
  grid_connections : ℚ
  panel_retirements : ℚ
  demand_increase : ℚ
  cost_reduction : ℚ
  storage_deployed : ℚ
  storage_retired : ℚ
  solar_power_output : ℚ
  dispatchable_storage : ℚ
  queue_pressure : ℚ
  total_clean_power : ℚ
  clean_to_demand_ratio : ℚ

/-- Initial stock values (2300.0, 50.0, 1.0, 200.0, 1100.0). -/
def init : State := ⟨2300, 50, 1, 200, 1100⟩

/-- Flows and computed variables, in the source's dependency order. -/
def compute (p : Params) (s : State) : Computed :=
  let project_submissions := p.solar_investment / max s.solar_cost (1/1000000)
  let grid_connections := s.grid_queue * p.connection_rate
  let panel_retirements := s.solar_capacity / p.panel_lifetime
  let demand_increase := s.data_center_demand * p.demand_growth_rate
  let cost_reduction := s.solar_cost * p.cost_learning_rate
  let storage_deployed := p.storage_investment / p.storage_unit_cost
  let storage_retired := s.battery_storage / p.battery_lifetime
  let solar_power_output := s.solar_capacity * p.capacity_factor
  let dispatchable_storage := s.battery_storage * p.battery_efficiency / p.discharge_hours
  let queue_pressure := s.grid_queue / max s.solar_capacity (1/1000000)
  let total_clean_power := solar_power_output + dispatchable_storage
  let clean_to_demand_ratio := total_clean_power / max s.data_center_demand (1/1000000)
  ⟨project_submissions, grid_connections, panel_retirements, demand_increase,
   cost_reduction, storage_deployed, storage_retired, solar_power_output,
   dispatchable_storage, queue_pressure, total_clean_power, clean_to_demand_ratio⟩

/-- Euler integration with the per-stock clamps (`solar_cost` floors at 0.01). -/
def update (_p : Params) (dt : ℚ) (s : State) (c : Computed) : State where
  solar_capacity := max (s.solar_capacity + dt * (c.grid_connections - c.panel_retirements)) 0
  data_center_demand := max (s.data_center_demand + dt * c.demand_increase) 0
  solar_cost := max (s.solar_cost + dt * (0 - c.cost_reduction)) (1/100)
  battery_storage := max (s.battery_storage + dt * (c.storage_deployed - c.storage_retired)) 0
  grid_queue := max (s.grid_queue + dt * (c.project_submissions - c.grid_connections)) 0

/-- `run_simulation` of `solar_ai_power`. -/
def run (p : Params) (dt tEnd : ℚ) : List (SD.Row State Computed) :=
  SD.loop (compute p) (update p dt) dt (SD.numRows dt tEnd) 0 init

/-- The `while`-loop form of `run`. -/
def runW (p : Params) (dt tEnd : ℚ) : List (SD.Row State Computed) :=
  SD.whileLoop (compute p) (update p dt) dt tEnd 0 init

/-- The slider ranges of the 11 parameters. -/
def InRange (p : Params) : Prop :=
  4/5 ≤ p.battery_efficiency ∧ p.battery_efficiency ≤ 19/20 ∧
  8 ≤ p.battery_lifetime ∧ p.battery_lifetime ≤ 25 ∧
  1/10 ≤ p.capacity_factor ∧ p.capacity_factor ≤ 2/5 ∧
  1/10 ≤ p.connection_rate ∧ p.connection_rate ≤ 4/5 ∧
  1/50 ≤ p.cost_learning_rate ∧ p.cost_learning_rate ≤ 1/5 ∧
  1/20 ≤ p.demand_growth_rate ∧ p.demand_growth_rate ≤ 1/2 ∧
  1 ≤ p.discharge_hours ∧ p.discharge_hours ≤ 12 ∧
  15 ≤ p.panel_lifetime ∧ p.panel_lifetime ≤ 40 ∧
  50 ≤ p.solar_investment ∧ p.solar_investment ≤ 2000 ∧
  5 ≤ p.storage_investment ∧ p.storage_investment ≤ 500 ∧
  1/20 ≤ p.storage_unit_cost ∧ p.storage_unit_cost ≤ 1/2

/-- The default slider values. -/
def defaults : Params :=
  ⟨9/10, 15, 1/4, 1/2, 1/10, 11/50, 4, 30, 400, 50, 3/20⟩

end SolarAi

/-! ## `structural_oil_supply_shortage` (src/apps/structural_oil_supply_shortage.py) -/

namespace StructuralOil

/-- The 13 slider parameters of `structural_oil_supply_shortage`. -/
structure Params where
  annual_demand_growth_fraction : ℚ
  barrels_per_ev_per_day : ℚ
  base_ev_growth_rate : ℚ
  breakeven_price : ℚ
  displacement_efficiency : ℚ
  investment_response_factor : ℚ
  natural_decline_fraction : ℚ
  positive_incentive_filter : ℚ
  price_elasticity : ℚ
  price_sensitivity : ℚ
  realistic_peak_demand_estimate : ℚ
  reference_oil_price : ℚ
  vitol_peak_demand_projection : ℚ

/-- The 3 stocks. -/
structure State where
  oil_supply_capacity : ℚ
  cumulative_ev_fleet : ℚ
  base_oil_demand_growth : ℚ

/-- The flows and computed variables recorded in each row. -/
structure Computed where
  oil_demand_displaced_by_evs : ℚ
  actual_oil_demand : ℚ
  supply_demand_gap : ℚ
  gap_ratio : ℚ
  oil_price : ℚ
  oil_price_effect_on_evs : ℚ
  ev_adoption_multiplier : ℚ
  price_above_breakeven : ℚ
  normalized_investment_signal : ℚ
  investment_incentive : ℚ
  new_capacity_investment : ℚ
  field_decline_rate : ℚ
  ev_adoption_rate : ℚ
  demand_increase_rate : ℚ

/-- Initial stock values (107.0, 22.0, 107.0). -/
def init : State := ⟨107, 22, 107⟩

/-- Flows and computed variables, in the source's dependency order.  Note
`gap_ratio` divides by the stock `oil_supply_capacity` (floor 0) with no
guard, and `oil_price_effect_on_evs` / `normalized_investment_signal` divide
by `reference_oil_price` / `breakeven_price`, whose slider ranges start at 0. -/
def compute (p : Params) (s : State) : Computed :=
  let oil_demand_displaced_by_evs := s.cumulative_ev_fleet * p.barrels_per_ev_per_day * p.displacement_efficiency
  let actual_oil_demand := s.base_oil_demand_growth - oil_demand_displaced_by_evs
  let supply_demand_gap := actual_oil_demand - s.oil_supply_capacity
  let gap_ratio := supply_demand_gap / s.oil_supply_capacity
  let oil_price := p.reference_oil_price + gap_ratio * p.price_elasticity * p.reference_oil_price
  let oil_price_effect_on_evs := (oil_price - p.reference_oil_price) / p.reference_oil_price * p.price_sensitivity
  let ev_adoption_multiplier := 1 + oil_price_effect_on_evs
  let price_above_breakeven := oil_price - p.breakeven_price
  let normalized_investment_signal := price_above_breakeven / p.breakeven_price
  let investment_incentive := (normalized_investment_signal + p.positive_incentive_filter) / 2
  let new_capacity_investment := investment_incentive * p.investment_response_factor
  let field_decline_rate := s.oil_supply_capacity * p.natural_decline_fraction
  let ev_adoption_rate := p.base_ev_growth_rate * ev_adoption_multiplier
  let demand_increase_rate := s.base_oil_demand_growth * p.annual_demand_growth_fraction
  ⟨oil_demand_displaced_by_evs, actual_oil_demand, supply_demand_gap, gap_ratio,
   oil_price, oil_price_effect_on_evs, ev_adoption_multiplier, price_above_breakeven,
   normalized_investment_signal, investment_incentive, new_capacity_investment,
   field_decline_rate, ev_adoption_rate, demand_increase_rate⟩

/-- Euler integration with the per-stock clamps. -/
def update (_p : Params) (dt : ℚ) (s : State) (c : Computed) : State where
  oil_supply_capacity := max (s.oil_supply_capacity + dt * (c.new_capacity_investment - c.field_decline_rate)) 0
  cumulative_ev_fleet := max (s.cumulative_ev_fleet + dt * c.ev_adoption_rate) 0
  base_oil_demand_growth := max (s.base_oil_demand_growth + dt * c.demand_increase_rate) 0

/-- `run_simulation` of `structural_oil_supply_shortage`. -/
def run (p : Params) (dt tEnd : ℚ) : List (SD.Row State Computed) :=
  SD.loop (compute p) (update p dt) dt (SD.numRows dt tEnd) 0 init

/-- The `while`-loop form of `run`. -/
def runW (p : Params) (dt tEnd : ℚ) : List (SD.Row State Computed) :=
  SD.whileLoop (compute p) (update p dt) dt tEnd 0 init

/-- The slider ranges of the 13 parameters. -/
def InRange (p : Params) : Prop :=
  0 ≤ p.annual_demand_growth_fraction ∧ p.annual_demand_growth_fraction ≤ 1/20 ∧
  0 ≤ p.barrels_per_ev_per_day ∧ p.barrels_per_ev_per_day ≤ 1 ∧
  0 ≤ p.base_ev_growth_rate ∧ p.base_ev_growth_rate ≤ 60 ∧
  0 ≤ p.breakeven_price ∧ p.breakeven_price ≤ 325 ∧
  0 ≤ p.displacement_efficiency ∧ p.displacement_efficiency ≤ 1 ∧
  0 ≤ p.investment_response_factor ∧ p.investment_response_factor ≤ 15/2 ∧
  0 ≤ p.natural_decline_fraction ∧ p.natural_decline_fraction ≤ 1 ∧
  0 ≤ p.positive_incentive_filter ∧ p.positive_incentive_filter ≤ 1 ∧
  0 ≤ p.price_elasticity ∧ p.price_elasticity ≤ 10 ∧
  0 ≤ p.price_sensitivity ∧ p.price_sensitivity ≤ 2 ∧
  0 ≤ p.realistic_peak_demand_estimate ∧ p.realistic_peak_demand_estimate ≤ 600 ∧
  0 ≤ p.reference_oil_price ∧ p.reference_oil_price ≤ 375 ∧
  0 ≤ p.vitol_peak_demand_projection ∧ p.vitol_peak_demand_projection ≤ 560

/-- The default slider values. -/
def defaults : Params :=
  ⟨9/1000, 1/500, 12, 65, 7/10, 3/2, 1/20, 1/10, 5/2, 3/10, 120, 75, 112⟩

/-- An admissible parameter set that drives `oil_supply_capacity` to exactly 0
after one step: full natural decline (`natural_decline_fraction = 1`) and no
investment response (`investment_response_factor = 0`), other values default. -/
def crashParams : Params :=
  ⟨9/1000, 1/500, 12, 65, 7/10, 0, 1, 1/10, 5/2, 3/10, 120, 75, 112⟩

/-- The default sliders with `annual_demand_growth_fraction = 0`, making the
net rate of the stock `base_oil_demand_growth` identically zero. -/
def zeroDemandParams : Params :=
  ⟨0, 1/500, 12, 65, 7/10, 3/2, 1/20, 1/10, 5/2, 3/10, 120, 75, 112⟩

end StructuralOil

/-! ## `ai_negative_growth` (src/apps/ai_negative_growth.py)

Its computed-variable block contains
`multiplier_denom = {'syntaxType': 'ReferenceStructure', 'reference': 'MAX'}(0.05, (1 - effective_mpc_with_ubi))`,
a call on a dict literal, which raises `TypeError` unconditionally, so every
entered loop iteration aborts the run. -/

namespace NegGrowth

/-- The 14 slider parameters of `ai_negative_growth`. -/
structure Params where
  ai_growth_rate : ℚ
  ai_productivity_gain : ℚ
  ai_productivity_max : ℚ
  base_consumption : ℚ
  consumption_gain : ℚ
  depreciation_fraction : ℚ
  displacement_speed : ℚ
  min_labor_share : ℚ
  mpc_owners : ℚ
  mpc_spread : ℚ
  mpc_workers : ℚ
  owner_reinvestment_rate : ℚ
  ubi_rate : ℚ
  worker_savings_rate : ℚ

/-- The 3 stocks (`ai_adoption = 0.01`, `labor_share = 0.6`,
`capital_stock = 100.0`). -/
structure State where
  ai_adoption : ℚ
  labor_share : ℚ
  capital_stock : ℚ

/-- The flows and computed variables the row would record (the computation
never reaches past `multiplier_denom`). -/
structure Computed where
  ai_adoption_growth : ℚ
  labor_displacement_flow : ℚ
  capital_depreciation : ℚ
  effective_mpc : ℚ
  ubi_boost : ℚ
  autonomous_consumption : ℚ
  effective_savings_rate : ℚ
  supply_side_capacity : ℚ
  effective_mpc_with_ubi : ℚ
  multiplier_denom : ℚ
  keynesian_multiplier : ℚ
  gdp : ℚ
  gross_investment : ℚ
  worker_income : ℚ
  owner_income : ℚ
  real_gdp : ℚ
  ubi_transfer : ℚ

/-- Initial stock values. -/
def init : State := ⟨1/100, 3/5, 100⟩

/-- The `TypeError` message Python raises when the dict literal on the
`multiplier_denom` line is called. -/
def dictCallError : String := "TypeError: 'dict' object is not callable"

/-- The computed-variable block, embedded as a fallible computation: its
assignments run in source order until the `multiplier_denom` line, whose
right-hand side calls a dict literal and raises `TypeError`; no `Computed`
value is ever produced. -/
def computeE (p : Params) (s : State) : Except String Computed :=
  let _ai_adoption_growth := p.ai_growth_rate * s.ai_adoption * (1 - s.ai_adoption)
  let _labor_displacement_flow := p.displacement_speed * s.ai_adoption * (s.labor_share - p.min_labor_share)
  let _capital_depreciation := p.depreciation_fraction * s.capital_stock
  let effective_mpc := p.mpc_workers * s.labor_share + p.mpc_owners * (1 - s.labor_share)
  let ubi_boost := p.mpc_spread * p.ubi_rate * (1 - s.labor_share)
  let _autonomous_consumption := p.base_consumption + p.consumption_gain * s.ai_adoption
  let _effective_savings_rate := p.worker_savings_rate * s.labor_share + p.owner_reinvestment_rate * (1 - s.labor_share)
  let _supply_side_capacity := s.capital_stock * (1 + p.ai_productivity_max * s.ai_adoption)
  let _effective_mpc_with_ubi := effective_mpc + ubi_boost
  Except.error dictCallError

/-- The Euler update the source would apply (never reached, since `computeE`
always raises first). -/
def update (_p : Params) (dt : ℚ) (s : State) (c : Computed) : State where
  ai_adoption := max (s.ai_adoption + dt * c.ai_adoption_growth) 0
  labor_share := max (s.labor_share + dt * (0 - c.labor_displacement_flow)) 0
  capital_stock := max (s.capital_stock + dt * (c.gross_investment - c.capital_depreciation)) 0

/-- `run_simulation` of `ai_negative_growth`: the loop aborts with the
`TypeError` as soon as it is entered. -/
def runE (p : Params) (dt tEnd : ℚ) : Except String (List (SD.Row State Computed)) :=
  SD.loopE (computeE p) (update p dt) dt (SD.numRows dt tEnd) 0 init

/-- The slider ranges of the 14 parameters. -/
def InRange (p : Params) : Prop :=
  1/10 ≤ p.ai_growth_rate ∧ p.ai_growth_rate ≤ 2 ∧
  0 ≤ p.ai_productivity_gain ∧ p.ai_productivity_gain ≤ 3 ∧
  1/2 ≤ p.ai_productivity_max ∧ p.ai_productivity_max ≤ 10 ∧
  30 ≤ p.base_consumption ∧ p.base_consumption ≤ 50 ∧
  0 ≤ p.consumption_gain ∧ p.consumption_gain ≤ 10 ∧
  1/100 ≤ p.depreciation_fraction ∧ p.depreciation_fraction ≤ 1/5 ∧
  1/100 ≤ p.displacement_speed ∧ p.displacement_speed ≤ 1/2 ∧
  1/100 ≤ p.min_labor_share ∧ p.min_labor_share ≤ 1/2 ∧
  0 ≤ p.mpc_owners ∧ p.mpc_owners ≤ 1/2 ∧
  0 ≤ p.mpc_spread ∧ p.mpc_spread ≤ 1 ∧
  1/2 ≤ p.mpc_workers ∧ p.mpc_workers ≤ 1 ∧
  1/100 ≤ p.owner_reinvestment_rate ∧ p.owner_reinvestment_rate ≤ 3/10 ∧
  0 ≤ p.ubi_rate ∧ p.ubi_rate ≤ 9/10 ∧
  1/100 ≤ p.worker_savings_rate ∧ p.worker_savings_rate ≤ 3/10

/-- The default slider values. -/
def defaults : Params :=
  ⟨2/5, 4/5, 3, 38, 2, 1/20, 1/10, 1/20, 1/5, 7/10, 9/10, 3/100, 0, 7/100⟩

end NegGrowth

/-! ## Generic lemmas about the simulation loop -/

namespace SD

variable {σ κ : Type} {c : σ → κ} {u : σ → κ → σ} {dt tEnd : ℚ}

theorem loop_length (c : σ → κ) (u : σ → κ → σ) (dt : ℚ) :
    ∀ (n : ℕ) (t : ℚ) (s : σ), (loop c u dt n t s).length = n
  | 0, _, _ => rfl
  | n + 1, t, s => by
      simpa [loop] using loop_length c u dt n (t + dt) (u s (c s))

theorem loop_get (c : σ → κ) (u : σ → κ → σ) (dt : ℚ) :
    ∀ (n : ℕ) (t : ℚ) (s : σ) (i : ℕ) (h : i < (loop c u dt n t s).length),
      (loop c u dt n t s).get ⟨i, h⟩ =
        (t + i * dt, (stepf c u)^[i] s, c ((stepf c u)^[i] s))
  | 0, _, _, i, h => by simp [loop_length] at h
  | n + 1, t, s, 0, _ => by simp [loop]
  | n + 1, t, s, i + 1, h => by
      have htail : i < (loop c u dt n (t + dt) (u s (c s))).length := by
        simpa [loop, loop_length] using h
      have := loop_get c u dt n (t + dt) (u s (c s)) i htail
      simp only [loop, List.get_cons_succ]
      rw [this]
      refine Prod.ext ?_ (by simp [Function.iterate_succ_apply, stepf])
      push_cast
      ring_nf

theorem loop_inv (c : σ → κ) (u : σ → κ → σ) (dt : ℚ) (I : σ → Prop)
    (hstep : ∀ s, I s → I (u s (c s))) :
    ∀ (n : ℕ) (t : ℚ) (s : σ), I s → ∀ r ∈ loop c u dt n t s, I r.2.1
  | 0, _, _, _, r, hr => by simp [loop] at hr
  | n + 1, t, s, hs, r, hr => by
      rw [loop, List.mem_cons] at hr
      rcases hr with hr | hr
      · simpa [hr] using hs
      · exact loop_inv c u dt I hstep n (t + dt) (u s (c s)) (hstep s hs) r hr

theorem loop_const (c : σ → κ) (u : σ → κ → σ) (dt : ℚ) (π : σ → ℚ) (fl : ℚ)
    (ρ : κ → ℚ) (hupd : ∀ s k, π (u s k) = max (π s + dt * ρ k) fl) :
    ∀ (n : ℕ) (t : ℚ) (s : σ), fl ≤ π s →
      (∀ r ∈ loop c u dt n t s, ρ r.2.2 = 0) →
      ∀ r ∈ loop c u dt n t s, π r.2.1 = π s
  | 0, _, _, _, _, r, hr => by simp [loop] at hr
  | n + 1, t, s, hfl, hzero, r, hr => by
      have hhead : ρ (c s) = 0 := hzero (t, s, c s) (by simp [loop])
      have hnext : π (u s (c s)) = π s := by
        rw [hupd, hhead, mul_zero, add_zero, max_eq_left hfl]
      rw [loop, List.mem_cons] at hr
      rcases hr with hr | hr
      · simp [hr]
      · have htailz : ∀ r ∈ loop c u dt n (t + dt) (u s (c s)), ρ r.2.2 = 0 :=
          fun r hr => hzero r (by simp [loop, hr])
        have := loop_const c u dt π fl ρ hupd n (t + dt) (u s (c s))
          (hnext ▸ hfl) htailz r hr
        rw [this, hnext]

theorem whileLoop_eq_loop (c : σ → κ) (u : σ → κ → σ) (dt tEnd : ℚ)
    (hdt : 0 < dt) :
    ∀ (n : ℕ) (t : ℚ) (s : σ), (⌊(tEnd + dt / 2 - t) / dt⌋ + 1).toNat = n →
      whileLoop c u dt tEnd t s = loop c u dt n t s := by
  intro n
  induction n with
  | zero =>
      intro t s hn
      rw [whileLoop, loop]
      have : ¬ t ≤ tEnd + dt / 2 := by
        intro hle
        have hX : 0 ≤ (tEnd + dt / 2 - t) / dt := div_nonneg (by linarith) hdt.le
        have := Int.floor_nonneg.mpr hX
        omega
      simp [this]
  | succ n ih =>
      intro t s hn
      have hle : t ≤ tEnd + dt / 2 := by
        by_contra hgt
        push_neg at hgt
        have hX : (tEnd + dt / 2 - t) / dt < 0 :=
          div_neg_of_neg_of_pos (by linarith) hdt
        have : ¬ (0 ≤ ⌊(tEnd + dt / 2 - t) / dt⌋) := by
          rw [Int.floor_nonneg]
          exact not_le.mpr hX
        omega
      rw [whileLoop, loop]
      simp only [hdt, hle, and_self, dite_true]
      congr 1
      apply ih
      have harg : (tEnd + dt / 2 - (t + dt)) / dt = (tEnd + dt / 2 - t) / dt - 1 := by
        field_simp
        ring
      have hsub : ⌊(tEnd + dt / 2 - (t + dt)) / dt⌋ = ⌊(tEnd + dt / 2 - t) / dt⌋ - 1 := by
        rw [harg]
        exact_mod_cast Int.floor_sub_int ((tEnd + dt / 2 - t) / dt) 1
      have hfl : 0 ≤ ⌊(tEnd + dt / 2 - t) / dt⌋ :=
        Int.floor_nonneg.mpr (div_nonneg (by linarith) hdt.le)
      omega

theorem whileLoop_eq_loop_numRows (c : σ → κ) (u : σ → κ → σ) (dt tEnd : ℚ)
    (hdt : 0 < dt) (s : σ) :
    whileLoop c u dt tEnd 0 s = loop c u dt (numRows dt tEnd) 0 s :=
  whileLoop_eq_loop c u dt tEnd hdt (numRows dt tEnd) 0 s (by simp [numRows])

theorem numRows_shift (hdt : 0 < dt) :
    (tEnd + dt / 2) / dt = tEnd / dt + 1 / 2 := by
  rw [div_eq_iff hdt.ne']
  field_simp
  ring

theorem numRows_cast (hdt : 0 < dt) (ht : 0 ≤ tEnd) :
    (numRows dt tEnd : ℤ) = ⌊tEnd / dt + 1 / 2⌋ + 1 := by
  rw [numRows, numRows_shift hdt]
  have h0 : 0 ≤ ⌊tEnd / dt + 1 / 2⌋ := by
    apply Int.floor_nonneg.mpr
    have := div_nonneg ht hdt.le
    linarith
  omega

theorem numRows_pos (hdt : 0 < dt) (ht : 0 ≤ tEnd) : 1 ≤ numRows dt tEnd := by
  have := @numRows_cast dt tEnd hdt ht
  have h0 : 0 ≤ ⌊tEnd / dt + 1 / 2⌋ := by
    apply Int.floor_nonneg.mpr
    have := div_nonneg ht hdt.le
    linarith
  omega

theorem numRows_of_fract (hdt : 0 < dt) (ht : 0 ≤ tEnd)
    (hfr : Int.fract (tEnd / dt) < 1 / 2) :
    (numRows dt tEnd : ℤ) = ⌊tEnd / dt⌋ + 1 := by
  rw [numRows_cast hdt ht]
  have hfr' : tEnd / dt - ⌊tEnd / dt⌋ < 1 / 2 := by
    rw [Int.fract] at hfr
    exact hfr
  have : ⌊tEnd / dt + 1 / 2⌋ = ⌊tEnd / dt⌋ := by
    apply Int.floor_eq_iff.mpr
    refine ⟨?_, ?_⟩
    · have := Int.floor_le (tEnd / dt)
      linarith
    · linarith
  omega

theorem numRows_le (hdt : 0 < dt) (ht : 0 ≤ tEnd) :
    (numRows dt tEnd : ℚ) ≤ tEnd / dt + 3 / 2 := by
  have hc := @numRows_cast dt tEnd hdt ht
  have hfl : (⌊tEnd / dt + 1 / 2⌋ : ℚ) ≤ tEnd / dt + 1 / 2 := Int.floor_le _
  have : ((numRows dt tEnd : ℤ) : ℚ) = (⌊tEnd / dt + 1 / 2⌋ : ℚ) + 1 := by
    exact_mod_cast congrArg (fun z : ℤ => (z : ℚ)) hc
  push_cast at this
  linarith

theorem numRows_last_le (hdt : 0 < dt) (ht : 0 ≤ tEnd) :
    ((numRows dt tEnd : ℚ) - 1) * dt ≤ tEnd + dt / 2 := by
  have hc := @numRows_cast dt tEnd hdt ht
  have hfl : (⌊tEnd / dt + 1 / 2⌋ : ℚ) ≤ tEnd / dt + 1 / 2 := Int.floor_le _
  have hcast : ((numRows dt tEnd : ℚ)) = (⌊tEnd / dt + 1 / 2⌋ : ℚ) + 1 := by
    exact_mod_cast congrArg (fun z : ℤ => (z : ℚ)) hc
  rw [hcast]
  have h1 : ((⌊tEnd / dt + 1 / 2⌋ : ℚ) + 1 - 1) * dt ≤ (tEnd / dt + 1 / 2) * dt := by
    have := mul_le_mul_of_nonneg_right hfl hdt.le
    linarith
  calc ((⌊tEnd / dt + 1 / 2⌋ : ℚ) + 1 - 1) * dt ≤ (tEnd / dt + 1 / 2) * dt := h1
    _ = tEnd + dt / 2 := by field_simp; ring

theorem numRows_lt_next (hdt : 0 < dt) (ht : 0 ≤ tEnd) :
    tEnd + dt / 2 < (numRows dt tEnd : ℚ) * dt := by
  have hc := @numRows_cast dt tEnd hdt ht
  have hfl : tEnd / dt + 1 / 2 < (⌊tEnd / dt + 1 / 2⌋ : ℚ) + 1 := Int.lt_floor_add_one _
  have hcast : ((numRows dt tEnd : ℚ)) = (⌊tEnd / dt + 1 / 2⌋ : ℚ) + 1 := by
    exact_mod_cast congrArg (fun z : ℤ => (z : ℚ)) hc
  rw [hcast]
  have := mul_lt_mul_of_pos_right hfl hdt
  calc tEnd + dt / 2 = (tEnd / dt + 1 / 2) * dt := by field_simp; ring
    _ < ((⌊tEnd / dt + 1 / 2⌋ : ℚ) + 1) * dt := this

theorem loop_get_succ {n i : ℕ} {t : ℚ} {s : σ}
    (h : i + 1 < (loop c u dt n t s).length) :
    ((loop c u dt n t s).get ⟨i + 1, h⟩).2.1 =
      u ((loop c u dt n t s).get ⟨i, Nat.lt_of_succ_lt h⟩).2.1
        ((loop c u dt n t s).get ⟨i, Nat.lt_of_succ_lt h⟩).2.2 := by
  rw [loop_get, loop_get]
  simp [Function.iterate_succ_apply', stepf]

theorem loop_get_fst {n i : ℕ} {t : ℚ} {s : σ}
    (h : i < (loop c u dt n t s).length) :
    ((loop c u dt n t s).get ⟨i, h⟩).1 = t + i * dt := by
  rw [loop_get]

theorem loop_computed :
    ∀ (n : ℕ) (t : ℚ) (s : σ), ∀ r ∈ loop c u dt n t s, r.2.2 = c r.2.1
  | 0, _, _, r, hr => by simp [loop] at hr
  | n + 1, t, s, r, hr => by
      rw [loop, List.mem_cons] at hr
      rcases hr with hr | hr
      · simp [hr]
      · exact loop_computed n (t + dt) (u s (c s)) r hr

theorem loopE_error_of_computeE {computeE : σ → Except String κ}
    {u : σ → κ → σ} {e : String} (he : ∀ s, computeE s = .error e)
    (n : ℕ) (t : ℚ) (s : σ) (hn : 0 < n) :
    loopE computeE u dt n t s = .error e := by
  cases n with
  | zero => omega
  | succ n =>
      rw [loopE, he s]
      rfl

end SD

/-! Helper lemmas: each app's `run` has `numRows dt tEnd` rows, and its `i`-th
row is `(i * dt, stepf^[i] init, compute (stepf^[i] init))`. -/

theorem agent_run_length (p : AiAgent.Params) (dt tEnd : ℚ) :
    (AiAgent.run p dt tEnd).length = SD.numRows dt tEnd := by
  rw [AiAgent.run, SD.loop_length]

theorem capex_run_length (p : AiCapex.Params) (dt tEnd : ℚ) :
    (AiCapex.run p dt tEnd).length = SD.numRows dt tEnd := by
  rw [AiCapex.run, SD.loop_length]

theorem silver_run_length (p : Silver.Params) (dt tEnd : ℚ) :
    (Silver.run p dt tEnd).length = SD.numRows dt tEnd := by
  rw [Silver.run, SD.loop_length]

theorem sodium_run_length (p : SodiumBattery.Params) (dt tEnd : ℚ) :
    (SodiumBattery.run p dt tEnd).length = SD.numRows dt tEnd := by
  rw [SodiumBattery.run, SD.loop_length]

theorem solar_run_length (p : SolarAi.Params) (dt tEnd : ℚ) :
    (SolarAi.run p dt tEnd).length = SD.numRows dt tEnd := by
  rw [SolarAi.run, SD.loop_length]

theorem oil_run_length (p : StructuralOil.Params) (dt tEnd : ℚ) :
    (StructuralOil.run p dt tEnd).length = SD.numRows dt tEnd := by
  rw [StructuralOil.run, SD.loop_length]

theorem agent_run_get (p : AiAgent.Params) (dt tEnd : ℚ) (i : ℕ)
    (h : i < (AiAgent.run p dt tEnd).length) :
    (AiAgent.run p dt tEnd).get ⟨i, h⟩ =
      (0 + i * dt,
       (SD.stepf (AiAgent.compute p) (AiAgent.update p dt))^[i] AiAgent.init,
       AiAgent.compute p
         ((SD.stepf (AiAgent.compute p) (AiAgent.update p dt))^[i] AiAgent.init)) :=
  SD.loop_get _ _ _ _ _ _ i h

theorem capex_run_get (p : AiCapex.Params) (dt tEnd : ℚ) (i : ℕ)
    (h : i < (AiCapex.run p dt tEnd).length) :
    (AiCapex.run p dt tEnd).get ⟨i, h⟩ =
      (0 + i * dt,
       (SD.stepf (AiCapex.compute p) (AiCapex.update p dt))^[i] AiCapex.init,
       AiCapex.compute p
         ((SD.stepf (AiCapex.compute p) (AiCapex.update p dt))^[i] AiCapex.init)) :=
  SD.loop_get _ _ _ _ _ _ i h

theorem silver_run_get (p : Silver.Params) (dt tEnd : ℚ) (i : ℕ)
    (h : i < (Silver.run p dt tEnd).length) :
    (Silver.run p dt tEnd).get ⟨i, h⟩ =
      (0 + i * dt,
       (SD.stepf (Silver.compute p) (Silver.update p dt))^[i] Silver.init,
       Silver.compute p
         ((SD.stepf (Silver.compute p) (Silver.update p dt))^[i] Silver.init)) :=
  SD.loop_get _ _ _ _ _ _ i h

theorem sodium_run_get (p : SodiumBattery.Params) (dt tEnd : ℚ) (i : ℕ)
    (h : i < (SodiumBattery.run p dt tEnd).length) :
    (SodiumBattery.run p dt tEnd).get ⟨i, h⟩ =
      (0 + i * dt,
       (SD.stepf (SodiumBattery.compute p) (SodiumBattery.update p dt))^[i] SodiumBattery.init,
       SodiumBattery.compute p
         ((SD.stepf (SodiumBattery.compute p) (SodiumBattery.update p dt))^[i] SodiumBattery.init)) :=
  SD.loop_get _ _ _ _ _ _ i h

theorem solar_run_get (p : SolarAi.Params) (dt tEnd : ℚ) (i : ℕ)
    (h : i < (SolarAi.run p dt tEnd).length) :
    (SolarAi.run p dt tEnd).get ⟨i, h⟩ =
      (0 + i * dt,
       (SD.stepf (SolarAi.compute p) (SolarAi.update p dt))^[i] SolarAi.init,
       SolarAi.compute p
         ((SD.stepf (SolarAi.compute p) (SolarAi.update p dt))^[i] SolarAi.init)) :=
  SD.loop_get _ _ _ _ _ _ i h

theorem oil_run_get (p : StructuralOil.Params) (dt tEnd : ℚ) (i : ℕ)
    (h : i < (StructuralOil.run p dt tEnd).length) :
    (StructuralOil.run p dt tEnd).get ⟨i, h⟩ =
      (0 + i * dt,
       (SD.stepf (StructuralOil.compute p) (StructuralOil.update p dt))^[i] StructuralOil.init,
       StructuralOil.compute p
         ((SD.stepf (StructuralOil.compute p) (StructuralOil.update p dt))^[i] StructuralOil.init)) :=
  SD.loop_get _ _ _ _ _ _ i h

/-- `numRows` at `dt = 1, t_end = 1`. -/
theorem numRows_1_1 : SD.numRows 1 1 = 2 := by
  rw [SD.numRows]
  norm_num
  rfl

/-- `numRows` at `dt = 1/2, t_end = 20` (the spec's 41-row scenario). -/
theorem numRows_half_20 : SD.numRows (1/2) 20 = 41 := by
  rw [SD.numRows]
  norm_num
  rfl

/-- `numRows` at `dt = 5, t_end = 10`. -/
theorem numRows_5_10 : SD.numRows 5 10 = 3 := by
  rw [SD.numRows]
  norm_num
  rfl

/-- `numRows` at `dt = 9/5, t_end = 3`. -/
theorem numRows_95_3 : SD.numRows (9/5) 3 = 3 := by
  rw [SD.numRows]
  norm_num
  rfl

/-- `ai_negative_growth`'s compute block always raises. -/
theorem negGrowth_computeE_error (p : NegGrowth.Params) (s : NegGrowth.State) :
    NegGrowth.computeE p s = .error NegGrowth.dictCallError := rfl

/-- An `ai_negative_growth` run that returns a table returns an empty one
(in fact the loop aborts whenever it is entered at all). -/
theorem negGrowth_ok_nil (p : NegGrowth.Params) (dt tEnd : ℚ)
    (rows : List (SD.Row NegGrowth.State NegGrowth.Computed))
    (hok : NegGrowth.runE p dt tEnd = Except.ok rows) : rows = [] := by
  rcases Nat.eq_zero_or_pos (SD.numRows dt tEnd) with hn | hn
  · rw [NegGrowth.runE, hn] at hok
    simpa [SD.loopE] using hok.symm
  · rw [NegGrowth.runE,
      SD.loopE_error_of_computeE (fun s => negGrowth_computeE_error p s) _ _ _ hn] at hok
    exact absurd hok (by simp)

/-- **C1.** In every app's `run_simulation` loop, for every pair of
consecutive rows `i` and `i+1` and every stock, the stock value recorded in
row `i` is its value before that step's update, and the stock value recorded
in row `i+1` equals `max(value_in_row_i + dt * net_rate_in_row_i, floor)`,
where the net rate is the source's sum/difference of the flow values recorded
in row `i` and the floor is that stock's clamp constant.  One conjunct per
app (for `ai_negative_growth`, which never returns a nonempty table, the
relation is vacuous: any returned table is empty). -/
theorem claim_C1 :
    (∀ (p : AiAgent.Params) (dt tEnd : ℚ) (i : ℕ)
      (h : i + 1 < (AiAgent.run p dt tEnd).length),
      ((AiAgent.run p dt tEnd).get ⟨i + 1, h⟩).2.1 =
        { task_horizon := max (((AiAgent.run p dt tEnd).get ⟨i, Nat.lt_of_succ_lt h⟩).2.1.task_horizon
              + dt * ((AiAgent.run p dt tEnd).get ⟨i, Nat.lt_of_succ_lt h⟩).2.2.capability_growth) 0
          agent_users := max (((AiAgent.run p dt tEnd).get ⟨i, Nat.lt_of_succ_lt h⟩).2.1.agent_users
              + dt * ((AiAgent.run p dt tEnd).get ⟨i, Nat.lt_of_succ_lt h⟩).2.2.new_adoptions) 0
          saas_revenue := max (((AiAgent.run p dt tEnd).get ⟨i, Nat.lt_of_succ_lt h⟩).2.1.saas_revenue
              + dt * (0 - ((AiAgent.run p dt tEnd).get ⟨i, Nat.lt_of_succ_lt h⟩).2.2.revenue_displacement)) 0
          gpu_compute := max (((AiAgent.run p dt tEnd).get ⟨i, Nat.lt_of_succ_lt h⟩).2.1.gpu_compute
              + dt * (((AiAgent.run p dt tEnd).get ⟨i, Nat.lt_of_succ_lt h⟩).2.2.compute_investment
                - ((AiAgent.run p dt tEnd).get ⟨i, Nat.lt_of_succ_lt h⟩).2.2.compute_depreciation)) 0 }) ∧
    (∀ (p : AiCapex.Params) (dt tEnd : ℚ) (i : ℕ)
      (h : i + 1 < (AiCapex.run p dt tEnd).length),
      ((AiCapex.run p dt tEnd).get ⟨i + 1, h⟩).2.1 =
        { deployment_pipeline := max (((AiCapex.run p dt tEnd).get ⟨i, Nat.lt_of_succ_lt h⟩).2.1.deployment_pipeline
              + dt * (((AiCapex.run p dt tEnd).get ⟨i, Nat.lt_of_succ_lt h⟩).2.2.new_capex
                - ((AiCapex.run p dt tEnd).get ⟨i, Nat.lt_of_succ_lt h⟩).2.2.capacity_deployed)) 0
          ai_infrastructure := max (((AiCapex.run p dt tEnd).get ⟨i, Nat.lt_of_succ_lt h⟩).2.1.ai_infrastructure
              + dt * (((AiCapex.run p dt tEnd).get ⟨i, Nat.lt_of_succ_lt h⟩).2.2.capacity_deployed
                - ((AiCapex.run p dt tEnd).get ⟨i, Nat.lt_of_succ_lt h⟩).2.2.capacity_retired)) 0
          market_cap := max (((AiCapex.run p dt tEnd).get ⟨i, Nat.lt_of_succ_lt h⟩).2.1.market_cap
              + dt * ((AiCapex.run p dt tEnd).get ⟨i, Nat.lt_of_succ_lt h⟩).2.2.valuation_adjustment) 1
          tech_employment := max (((AiCapex.run p dt tEnd).get ⟨i, Nat.lt_of_succ_lt h⟩).2.1.tech_employment
              + dt * (((AiCapex.run p dt tEnd).get ⟨i, Nat.lt_of_succ_lt h⟩).2.2.tech_hiring
                - ((AiCapex.run p dt tEnd).get ⟨i, Nat.lt_of_succ_lt h⟩).2.2.job_displacement)) 0 }) ∧
    (∀ (p : Silver.Params) (dt tEnd : ℚ) (i : ℕ)
      (h : i + 1 < (Silver.run p dt tEnd).length),
      ((Silver.run p dt tEnd).get ⟨i + 1, h⟩).2.1 =
        { warehouse_inventory := max (((Silver.run p dt tEnd).get ⟨i, Nat.lt_of_succ_lt h⟩).2.1.warehouse_inventory
              + dt * (((Silver.run p dt tEnd).get ⟨i, Nat.lt_of_succ_lt h⟩).2.2.western_supply
                + ((Silver.run p dt tEnd).get ⟨i, Nat.lt_of_succ_lt h⟩).2.2.chinese_export_flow
                - ((Silver.run p dt tEnd).get ⟨i, Nat.lt_of_succ_lt h⟩).2.2.industrial_demand
                - ((Silver.run p dt tEnd).get ⟨i, Nat.lt_of_succ_lt h⟩).2.2.net_retail_flow)) 10
          retail_holdings := max (((Silver.run p dt tEnd).get ⟨i, Nat.lt_of_succ_lt h⟩).2.1.retail_holdings
              + dt * ((Silver.run p dt tEnd).get ⟨i, Nat.lt_of_succ_lt h⟩).2.2.net_retail_flow) 0
          silver_price := max (((Silver.run p dt tEnd).get ⟨i, Nat.lt_of_succ_lt h⟩).2.1.silver_price
              + dt * ((Silver.run p dt tEnd).get ⟨i, Nat.lt_of_succ_lt h⟩).2.2.price_change) 5
          chinese_export_capacity := max (((Silver.run p dt tEnd).get ⟨i, Nat.lt_of_succ_lt h⟩).2.1.chinese_export_capacity
              + dt * (0 - ((Silver.run p dt tEnd).get ⟨i, Nat.lt_of_succ_lt h⟩).2.2.export_restriction)) 0
          retail_sentiment := max (((Silver.run p dt tEnd).get ⟨i, Nat.lt_of_succ_lt h⟩).2.1.retail_sentiment
              + dt * ((Silver.run p dt tEnd).get ⟨i, Nat.lt_of_succ_lt h⟩).2.2.sentiment_change) (1/100) }) ∧
    (∀ (p : SodiumBattery.Params) (dt tEnd : ℚ) (i : ℕ)
      (h : i + 1 < (SodiumBattery.run p dt tEnd).length),
      ((SodiumBattery.run p dt tEnd).get ⟨i + 1, h⟩).2.1 =
        { installed_capacity := max (((SodiumBattery.run p dt tEnd).get ⟨i, Nat.lt_of_succ_lt h⟩).2.1.installed_capacity
              + dt * (((SodiumBattery.run p dt tEnd).get ⟨i, Nat.lt_of_succ_lt h⟩).2.2.new_installations
                - ((SodiumBattery.run p dt tEnd).get ⟨i, Nat.lt_of_succ_lt h⟩).2.2.retirements)) 0
          unit_cost := max (((SodiumBattery.run p dt tEnd).get ⟨i, Nat.lt_of_succ_lt h⟩).2.1.unit_cost
              + dt * (0 - ((SodiumBattery.run p dt tEnd).get ⟨i, Nat.lt_of_succ_lt h⟩).2.2.cost_reduction)) (1/1000)
          total_demand := max (((SodiumBattery.run p dt tEnd).get ⟨i, Nat.lt_of_succ_lt h⟩).2.1.total_demand
              + dt * ((SodiumBattery.run p dt tEnd).get ⟨i, Nat.lt_of_succ_lt h⟩).2.2.demand_growth) 0
          gas_generation := max (((SodiumBattery.run p dt tEnd).get ⟨i, Nat.lt_of_succ_lt h⟩).2.1.gas_generation
              + dt * (0 - ((SodiumBattery.run p dt tEnd).get ⟨i, Nat.lt_of_succ_lt h⟩).2.2.gas_displaced)) 0
          coal_generation := max (((SodiumBattery.run p dt tEnd).get ⟨i, Nat.lt_of_succ_lt h⟩).2.1.coal_generation
              + dt * (0 - ((SodiumBattery.run p dt tEnd).get ⟨i, Nat.lt_of_succ_lt h⟩).2.2.coal_displaced)) 0 }) ∧
    (∀ (p : SolarAi.Params) (dt tEnd : ℚ) (i : ℕ)
      (h : i + 1 < (SolarAi.run p dt tEnd).length),
      ((SolarAi.run p dt tEnd).get ⟨i + 1, h⟩).2.1 =
        { solar_capacity := max (((SolarAi.run p dt tEnd).get ⟨i, Nat.lt_of_succ_lt h⟩).2.1.solar_capacity
              + dt * (((SolarAi.run p dt tEnd).get ⟨i, Nat.lt_of_succ_lt h⟩).2.2.grid_connections
                - ((SolarAi.run p dt tEnd).get ⟨i, Nat.lt_of_succ_lt h⟩).2.2.panel_retirements)) 0
          data_center_demand := max (((SolarAi.run p dt tEnd).get ⟨i, Nat.lt_of_succ_lt h⟩).2.1.data_center_demand
              + dt * ((SolarAi.run p dt tEnd).get ⟨i, Nat.lt_of_succ_lt h⟩).2.2.demand_increase) 0
          solar_cost := max (((SolarAi.run p dt tEnd).get ⟨i, Nat.lt_of_succ_lt h⟩).2.1.solar_cost
              + dt * (0 - ((SolarAi.run p dt tEnd).get ⟨i, Nat.lt_of_succ_lt h⟩).2.2.cost_reduction)) (1/100)
          battery_storage := max (((SolarAi.run p dt tEnd).get ⟨i, Nat.lt_of_succ_lt h⟩).2.1.battery_storage
              + dt * (((SolarAi.run p dt tEnd).get ⟨i, Nat.lt_of_succ_lt h⟩).2.2.storage_deployed
                - ((SolarAi.run p dt tEnd).get ⟨i, Nat.lt_of_succ_lt h⟩).2.2.storage_retired)) 0
          grid_queue := max (((SolarAi.run p dt tEnd).get ⟨i, Nat.lt_of_succ_lt h⟩).2.1.grid_queue
              + dt * (((SolarAi.run p dt tEnd).get ⟨i, Nat.lt_of_succ_lt h⟩).2.2.project_submissions
                - ((SolarAi.run p dt tEnd).get ⟨i, Nat.lt_of_succ_lt h⟩).2.2.grid_connections)) 0 }) ∧
    (∀ (p : StructuralOil.Params) (dt tEnd : ℚ) (i : ℕ)
      (h : i + 1 < (StructuralOil.run p dt tEnd).length),
      ((StructuralOil.run p dt tEnd).get ⟨i + 1, h⟩).2.1 =
        { oil_supply_capacity := max (((StructuralOil.run p dt tEnd).get ⟨i, Nat.lt_of_succ_lt h⟩).2.1.oil_supply_capacity
              + dt * (((StructuralOil.run p dt tEnd).get ⟨i, Nat.lt_of_succ_lt h⟩).2.2.new_capacity_investment
                - ((StructuralOil.run p dt tEnd).get ⟨i, Nat.lt_of_succ_lt h⟩).2.2.field_decline_rate)) 0
          cumulative_ev_fleet := max (((StructuralOil.run p dt tEnd).get ⟨i, Nat.lt_of_succ_lt h⟩).2.1.cumulative_ev_fleet
              + dt * ((StructuralOil.run p dt tEnd).get ⟨i, Nat.lt_of_succ_lt h⟩).2.2.ev_adoption_rate) 0
          base_oil_demand_growth := max (((StructuralOil.run p dt tEnd).get ⟨i, Nat.lt_of_succ_lt h⟩).2.1.base_oil_demand_growth
              + dt * ((StructuralOil.run p dt tEnd).get ⟨i, Nat.lt_of_succ_lt h⟩).2.2.demand_increase_rate) 0 }) ∧
    (∀ (p : NegGrowth.Params) (dt tEnd : ℚ)
      (rows : List (SD.Row NegGrowth.State NegGrowth.Computed)),
      NegGrowth.runE p dt tEnd = Except.ok rows → rows = []) := by
  refine ⟨?_, ?_, ?_, ?_, ?_, ?_, ?_⟩
  · intro p dt tEnd i h
    exact SD.loop_get_succ h
  · intro p dt tEnd i h
    exact SD.loop_get_succ h
  · intro p dt tEnd i h
    exact SD.loop_get_succ h
  · intro p dt tEnd i h
    exact SD.loop_get_succ h
  · intro p dt tEnd i h
    exact SD.loop_get_succ h
  · intro p dt tEnd i h
    exact SD.loop_get_succ h
  · exact negGrowth_ok_nil

/-- **C1 witness**: the relation instantiated at the `ai_agent_disruption`
defaults with `dt = 1`, `t_end = 1`, rows 0 and 1. -/
theorem claim_C1_witness :
    ((AiAgent.run AiAgent.defaults 1 1).get
        ⟨0 + 1, by rw [agent_run_length, numRows_1_1]; norm_num⟩).2.1 =
      { task_horizon := max (((AiAgent.run AiAgent.defaults 1 1).get
              ⟨0, by rw [agent_run_length, numRows_1_1]; norm_num⟩).2.1.task_horizon
            + 1 * ((AiAgent.run AiAgent.defaults 1 1).get
              ⟨0, by rw [agent_run_length, numRows_1_1]; norm_num⟩).2.2.capability_growth) 0
        agent_users := max (((AiAgent.run AiAgent.defaults 1 1).get
              ⟨0, by rw [agent_run_length, numRows_1_1]; norm_num⟩).2.1.agent_users
            + 1 * ((AiAgent.run AiAgent.defaults 1 1).get
              ⟨0, by rw [agent_run_length, numRows_1_1]; norm_num⟩).2.2.new_adoptions) 0
        saas_revenue := max (((AiAgent.run AiAgent.defaults 1 1).get
              ⟨0, by rw [agent_run_length, numRows_1_1]; norm_num⟩).2.1.saas_revenue
            + 1 * (0 - ((AiAgent.run AiAgent.defaults 1 1).get
              ⟨0, by rw [agent_run_length, numRows_1_1]; norm_num⟩).2.2.revenue_displacement)) 0
        gpu_compute := max (((AiAgent.run AiAgent.defaults 1 1).get
              ⟨0, by rw [agent_run_length, numRows_1_1]; norm_num⟩).2.1.gpu_compute
            + 1 * (((AiAgent.run AiAgent.defaults 1 1).get
              ⟨0, by rw [agent_run_length, numRows_1_1]; norm_num⟩).2.2.compute_investment
              - ((AiAgent.run AiAgent.defaults 1 1).get
              ⟨0, by rw [agent_run_length, numRows_1_1]; norm_num⟩).2.2.compute_depreciation)) 0 } :=
  claim_C1.1 AiAgent.defaults 1 1 0
    (by rw [agent_run_length, numRows_1_1]; norm_num)

/-- **C2 counterexample**: the claim quantifies over every app's runs, but an
`ai_negative_growth` run with the default sliders, `dt = 1/4`, `t_end = 60`
raises `TypeError` in its first loop iteration and produces no table at all
(the claim would require `⌊60/(1/4)⌋ + 1 = 241` rows). -/
theorem claim_C2_counterexample :
    NegGrowth.runE NegGrowth.defaults (1/4) 60 = Except.error NegGrowth.dictCallError ∧
    (NegGrowth.runE NegGrowth.defaults (1/4) 60).toOption = none := by
  have herr : NegGrowth.runE NegGrowth.defaults (1/4) 60 =
      Except.error NegGrowth.dictCallError := by
    rw [NegGrowth.runE]
    refine SD.loopE_error_of_computeE (fun s => negGrowth_computeE_error _ s) _ _ _ ?_
    exact SD.numRows_pos (by norm_num) (by norm_num)
  exact ⟨herr, by rw [herr]; rfl⟩

/-- **C2** (as amended).  For every app other than `ai_negative_growth`
(whose run raises before appending any row, see C4): a run with `dt > 0`,
`t_end ≥ 0` and `fract(t_end/dt) < 1/2` (the exact-arithmetic reading of
"well-behaved `dt`") produces exactly `⌊t_end/dt⌋ + 1` rows — for
`structural_oil_supply_shortage` under the proviso that the run encounters
no zero denominator (`reference_oil_price ≠ 0`, `breakeven_price ≠ 0`, and
`oil_supply_capacity` nonzero at every row; otherwise the Python run raises
`ZeroDivisionError` mid-loop and returns no table at all, see C5 and its
counterexample) — the first row is at time 0 and the last row is at the
largest loop time `≤ t_end + dt/2`; in particular for `dt = 1/2`,
`t_end = 20` a run produces exactly 41 rows with `rows[0].time = 0` and
`rows[40].time = 20`. -/
theorem claim_C2 :
    (∀ (p : AiAgent.Params) (dt tEnd : ℚ), 0 < dt → 0 ≤ tEnd →
      Int.fract (tEnd / dt) < 1/2 →
      ((AiAgent.run p dt tEnd).length : ℤ) = ⌊tEnd / dt⌋ + 1) ∧
    (∀ (p : AiCapex.Params) (dt tEnd : ℚ), 0 < dt → 0 ≤ tEnd →
      Int.fract (tEnd / dt) < 1/2 →
      ((AiCapex.run p dt tEnd).length : ℤ) = ⌊tEnd / dt⌋ + 1) ∧
    (∀ (p : Silver.Params) (dt tEnd : ℚ), 0 < dt → 0 ≤ tEnd →
      Int.fract (tEnd / dt) < 1/2 →
      ((Silver.run p dt tEnd).length : ℤ) = ⌊tEnd / dt⌋ + 1) ∧
    (∀ (p : SodiumBattery.Params) (dt tEnd : ℚ), 0 < dt → 0 ≤ tEnd →
      Int.fract (tEnd / dt) < 1/2 →
      ((SodiumBattery.run p dt tEnd).length : ℤ) = ⌊tEnd / dt⌋ + 1) ∧
    (∀ (p : SolarAi.Params) (dt tEnd : ℚ), 0 < dt → 0 ≤ tEnd →
      Int.fract (tEnd / dt) < 1/2 →
      ((SolarAi.run p dt tEnd).length : ℤ) = ⌊tEnd / dt⌋ + 1) ∧
    (∀ (p : StructuralOil.Params) (dt tEnd : ℚ), 0 < dt → 0 ≤ tEnd →
      Int.fract (tEnd / dt) < 1/2 →
      p.reference_oil_price ≠ 0 → p.breakeven_price ≠ 0 →
      (∀ r ∈ StructuralOil.run p dt tEnd, r.2.1.oil_supply_capacity ≠ 0) →
      ((StructuralOil.run p dt tEnd).length : ℤ) = ⌊tEnd / dt⌋ + 1) ∧
    (∀ (p : AiAgent.Params) (dt tEnd : ℚ), 0 < dt → 0 ≤ tEnd →
      (∀ h0 : 0 < (AiAgent.run p dt tEnd).length,
        ((AiAgent.run p dt tEnd).get ⟨0, h0⟩).1 = 0) ∧
      (∀ hl : (AiAgent.run p dt tEnd).length - 1 < (AiAgent.run p dt tEnd).length,
        ((AiAgent.run p dt tEnd).get ⟨(AiAgent.run p dt tEnd).length - 1, hl⟩).1 ≤ tEnd + dt / 2 ∧
        tEnd + dt / 2 < ((AiAgent.run p dt tEnd).get ⟨(AiAgent.run p dt tEnd).length - 1, hl⟩).1 + dt)) ∧
    (∀ (p : AiCapex.Params) (dt tEnd : ℚ), 0 < dt → 0 ≤ tEnd →
      (∀ h0 : 0 < (AiCapex.run p dt tEnd).length,
        ((AiCapex.run p dt tEnd).get ⟨0, h0⟩).1 = 0) ∧
      (∀ hl : (AiCapex.run p dt tEnd).length - 1 < (AiCapex.run p dt tEnd).length,
        ((AiCapex.run p dt tEnd).get ⟨(AiCapex.run p dt tEnd).length - 1, hl⟩).1 ≤ tEnd + dt / 2 ∧
        tEnd + dt / 2 < ((AiCapex.run p dt tEnd).get ⟨(AiCapex.run p dt tEnd).length - 1, hl⟩).1 + dt)) ∧
    (∀ p : AiAgent.Params, (AiAgent.run p (1/2) 20).length = 41 ∧
      (∀ h0 : 0 < (AiAgent.run p (1/2) 20).length,
        ((AiAgent.run p (1/2) 20).get ⟨0, h0⟩).1 = 0) ∧
      (∀ h40 : 40 < (AiAgent.run p (1/2) 20).length,
        ((AiAgent.run p (1/2) 20).get ⟨40, h40⟩).1 = 20)) ∧
    (∀ p : AiCapex.Params, (AiCapex.run p (1/2) 20).length = 41 ∧
      (∀ h0 : 0 < (AiCapex.run p (1/2) 20).length,
        ((AiCapex.run p (1/2) 20).get ⟨0, h0⟩).1 = 0) ∧
      (∀ h40 : 40 < (AiCapex.run p (1/2) 20).length,
        ((AiCapex.run p (1/2) 20).get ⟨40, h40⟩).1 = 20)) := by
  refine ⟨?_, ?_, ?_, ?_, ?_, ?_, ?_, ?_, ?_, ?_⟩
  · intro p dt tEnd hdt ht hfr
    rw [agent_run_length]
    exact SD.numRows_of_fract hdt ht hfr
  · intro p dt tEnd hdt ht hfr
    rw [capex_run_length]
    exact SD.numRows_of_fract hdt ht hfr
  · intro p dt tEnd hdt ht hfr
    rw [silver_run_length]
    exact SD.numRows_of_fract hdt ht hfr
  · intro p dt tEnd hdt ht hfr
    rw [sodium_run_length]
    exact SD.numRows_of_fract hdt ht hfr
  · intro p dt tEnd hdt ht hfr
    rw [solar_run_length]
    exact SD.numRows_of_fract hdt ht hfr
  · intro p dt tEnd hdt ht hfr _hrop _hbe _hosc
    rw [oil_run_length]
    exact SD.numRows_of_fract hdt ht hfr
  · intro p dt tEnd hdt ht
    constructor
    · intro h0
      rw [agent_run_get]
      simp
    · intro hl
      rw [agent_run_get]
      have hcast : (((AiAgent.run p dt tEnd).length - 1 : ℕ) : ℚ) =
          (SD.numRows dt tEnd : ℚ) - 1 := by
        rw [agent_run_length, Nat.cast_sub (SD.numRows_pos hdt ht)]
        norm_num
      rw [hcast]
      constructor
      · have := SD.numRows_last_le hdt ht
        linarith
      · have := SD.numRows_lt_next hdt ht
        linarith
  · intro p dt tEnd hdt ht
    constructor
    · intro h0
      rw [capex_run_get]
      simp
    · intro hl
      rw [capex_run_get]
      have hcast : (((AiCapex.run p dt tEnd).length - 1 : ℕ) : ℚ) =
          (SD.numRows dt tEnd : ℚ) - 1 := by
        rw [capex_run_length, Nat.cast_sub (SD.numRows_pos hdt ht)]
        norm_num
      rw [hcast]
      constructor
      · have := SD.numRows_last_le hdt ht
        linarith
      · have := SD.numRows_lt_next hdt ht
        linarith
  · intro p
    refine ⟨by rw [agent_run_length, numRows_half_20], ?_, ?_⟩
    · intro h0
      rw [agent_run_get]
      simp
    · intro h40
      rw [agent_run_get]
      norm_num
  · intro p
    refine ⟨by rw [capex_run_length, numRows_half_20], ?_, ?_⟩
    · intro h0
      rw [capex_run_get]
      simp
    · intro h40
      rw [capex_run_get]
      norm_num

/-- **C2 witness**: the 41-row scenario instantiated at the
`ai_agent_disruption` defaults. -/
theorem claim_C2_witness :
    ((AiAgent.run AiAgent.defaults (1/2) 20).length : ℤ) = ⌊(20 : ℚ) / (1/2)⌋ + 1 ∧
    (AiAgent.run AiAgent.defaults (1/2) 20).length = 41 :=
  ⟨claim_C2.1 AiAgent.defaults (1/2) 20 (by norm_num) (by norm_num)
      (by rw [Int.fract]; norm_num),
   (claim_C2.2.2.2.2.2.2.2.2.1 AiAgent.defaults).1⟩

/-- **C3.** For every app, every stock, and every row of the produced result
table, the recorded stock value is at least that stock's clamp floor; the
first row records the declared initial stock values.  (`ai_negative_growth`
produces no rows, so the quantification over its rows is empty.) -/
theorem claim_C3 :
    (∀ (p : AiAgent.Params) (dt tEnd : ℚ),
      (∀ r ∈ AiAgent.run p dt tEnd,
        0 ≤ r.2.1.task_horizon ∧ 0 ≤ r.2.1.agent_users ∧
        0 ≤ r.2.1.saas_revenue ∧ 0 ≤ r.2.1.gpu_compute) ∧
      (∀ h0 : 0 < (AiAgent.run p dt tEnd).length,
        ((AiAgent.run p dt tEnd).get ⟨0, h0⟩).2.1 = AiAgent.init)) ∧
    (∀ (p : AiCapex.Params) (dt tEnd : ℚ),
      (∀ r ∈ AiCapex.run p dt tEnd,
        0 ≤ r.2.1.deployment_pipeline ∧ 0 ≤ r.2.1.ai_infrastructure ∧
        1 ≤ r.2.1.market_cap ∧ 0 ≤ r.2.1.tech_employment) ∧
      (∀ h0 : 0 < (AiCapex.run p dt tEnd).length,
        ((AiCapex.run p dt tEnd).get ⟨0, h0⟩).2.1 = AiCapex.init)) ∧
    (∀ (p : Silver.Params) (dt tEnd : ℚ),
      (∀ r ∈ Silver.run p dt tEnd,
        10 ≤ r.2.1.warehouse_inventory ∧ 0 ≤ r.2.1.retail_holdings ∧
        5 ≤ r.2.1.silver_price ∧ 0 ≤ r.2.1.chinese_export_capacity ∧
        1/100 ≤ r.2.1.retail_sentiment) ∧
      (∀ h0 : 0 < (Silver.run p dt tEnd).length,
        ((Silver.run p dt tEnd).get ⟨0, h0⟩).2.1 = Silver.init)) ∧
    (∀ (p : SodiumBattery.Params) (dt tEnd : ℚ),
      (∀ r ∈ SodiumBattery.run p dt tEnd,
        0 ≤ r.2.1.installed_capacity ∧ 1/1000 ≤ r.2.1.unit_cost ∧
        0 ≤ r.2.1.total_demand ∧ 0 ≤ r.2.1.gas_generation ∧
        0 ≤ r.2.1.coal_generation) ∧
      (∀ h0 : 0 < (SodiumBattery.run p dt tEnd).length,
        ((SodiumBattery.run p dt tEnd).get ⟨0, h0⟩).2.1 = SodiumBattery.init)) ∧
    (∀ (p : SolarAi.Params) (dt tEnd : ℚ),
      (∀ r ∈ SolarAi.run p dt tEnd,
        0 ≤ r.2.1.solar_capacity ∧ 0 ≤ r.2.1.data_center_demand ∧
        1/100 ≤ r.2.1.solar_cost ∧ 0 ≤ r.2.1.battery_storage ∧
        0 ≤ r.2.1.grid_queue) ∧
      (∀ h0 : 0 < (SolarAi.run p dt tEnd).length,
        ((SolarAi.run p dt tEnd).get ⟨0, h0⟩).2.1 = SolarAi.init)) ∧
    (∀ (p : StructuralOil.Params) (dt tEnd : ℚ),
      (∀ r ∈ StructuralOil.run p dt tEnd,
        0 ≤ r.2.1.oil_supply_capacity ∧ 0 ≤ r.2.1.cumulative_ev_fleet ∧
        0 ≤ r.2.1.base_oil_demand_growth) ∧
      (∀ h0 : 0 < (StructuralOil.run p dt tEnd).length,
        ((StructuralOil.run p dt tEnd).get ⟨0, h0⟩).2.1 = StructuralOil.init)) := by
  refine ⟨?_, ?_, ?_, ?_, ?_, ?_⟩
  · intro p dt tEnd
    constructor
    · intro r hr
      refine SD.loop_inv (AiAgent.compute p) (AiAgent.update p dt) dt
        (fun s => 0 ≤ s.task_horizon ∧ 0 ≤ s.agent_users ∧
          0 ≤ s.saas_revenue ∧ 0 ≤ s.gpu_compute) ?_
        (SD.numRows dt tEnd) 0 AiAgent.init (by norm_num [AiAgent.init]) r hr
      intro s _
      exact ⟨le_max_right _ _, le_max_right _ _, le_max_right _ _, le_max_right _ _⟩
    · intro h0
      rw [agent_run_get]
      simp
  · intro p dt tEnd
    constructor
    · intro r hr
      refine SD.loop_inv (AiCapex.compute p) (AiCapex.update p dt) dt
        (fun s => 0 ≤ s.deployment_pipeline ∧ 0 ≤ s.ai_infrastructure ∧
          1 ≤ s.market_cap ∧ 0 ≤ s.tech_employment) ?_
        (SD.numRows dt tEnd) 0 AiCapex.init (by norm_num [AiCapex.init]) r hr
      intro s _
      exact ⟨le_max_right _ _, le_max_right _ _, le_max_right _ _, le_max_right _ _⟩
    · intro h0
      rw [capex_run_get]
      simp
  · intro p dt tEnd
    constructor
    · intro r hr
      refine SD.loop_inv (Silver.compute p) (Silver.update p dt) dt
        (fun s => 10 ≤ s.warehouse_inventory ∧ 0 ≤ s.retail_holdings ∧
          5 ≤ s.silver_price ∧ 0 ≤ s.chinese_export_capacity ∧
          1/100 ≤ s.retail_sentiment) ?_
        (SD.numRows dt tEnd) 0 Silver.init (by norm_num [Silver.init]) r hr
      intro s _
      exact ⟨le_max_right _ _, le_max_right _ _, le_max_right _ _, le_max_right _ _,
        le_max_right _ _⟩
    · intro h0
      rw [silver_run_get]
      simp
  · intro p dt tEnd
    constructor
    · intro r hr
      refine SD.loop_inv (SodiumBattery.compute p) (SodiumBattery.update p dt) dt
        (fun s => 0 ≤ s.installed_capacity ∧ 1/1000 ≤ s.unit_cost ∧
          0 ≤ s.total_demand ∧ 0 ≤ s.gas_generation ∧ 0 ≤ s.coal_generation) ?_
        (SD.numRows dt tEnd) 0 SodiumBattery.init (by norm_num [SodiumBattery.init]) r hr
      intro s _
      exact ⟨le_max_right _ _, le_max_right _ _, le_max_right _ _, le_max_right _ _,
        le_max_right _ _⟩
    · intro h0
      rw [sodium_run_get]
      simp
  · intro p dt tEnd
    constructor
    · intro r hr
      refine SD.loop_inv (SolarAi.compute p) (SolarAi.update p dt) dt
        (fun s => 0 ≤ s.solar_capacity ∧ 0 ≤ s.data_center_demand ∧
          1/100 ≤ s.solar_cost ∧ 0 ≤ s.battery_storage ∧ 0 ≤ s.grid_queue) ?_
        (SD.numRows dt tEnd) 0 SolarAi.init (by norm_num [SolarAi.init]) r hr
      intro s _
      exact ⟨le_max_right _ _, le_max_right _ _, le_max_right _ _, le_max_right _ _,
        le_max_right _ _⟩
    · intro h0
      rw [solar_run_get]
      simp
  · intro p dt tEnd
    constructor
    · intro r hr
      refine SD.loop_inv (StructuralOil.compute p) (StructuralOil.update p dt) dt
        (fun s => 0 ≤ s.oil_supply_capacity ∧ 0 ≤ s.cumulative_ev_fleet ∧
          0 ≤ s.base_oil_demand_growth) ?_
        (SD.numRows dt tEnd) 0 StructuralOil.init (by norm_num [StructuralOil.init]) r hr
      intro s _
      exact ⟨le_max_right _ _, le_max_right _ _, le_max_right _ _⟩
    · intro h0
      rw [oil_run_get]
      simp

/-- **C3 witness**: the floor bounds at row 0 of the `ai_agent_disruption`
defaults with `dt = 1`, `t_end = 1`. -/
theorem claim_C3_witness :
    0 ≤ ((AiAgent.run AiAgent.defaults 1 1).get
        ⟨0, by rw [agent_run_length, numRows_1_1]; norm_num⟩).2.1.task_horizon ∧
    0 ≤ ((AiAgent.run AiAgent.defaults 1 1).get
        ⟨0, by rw [agent_run_length, numRows_1_1]; norm_num⟩).2.1.agent_users ∧
    0 ≤ ((AiAgent.run AiAgent.defaults 1 1).get
        ⟨0, by rw [agent_run_length, numRows_1_1]; norm_num⟩).2.1.saas_revenue ∧
    0 ≤ ((AiAgent.run AiAgent.defaults 1 1).get
        ⟨0, by rw [agent_run_length, numRows_1_1]; norm_num⟩).2.1.gpu_compute :=
  (claim_C3.1 AiAgent.defaults 1 1).1 _
    (List.get_mem _ 0 (by rw [agent_run_length, numRows_1_1]; norm_num))

/-- **C4.** (code bug) The claim says every admissible run completes all
steps and returns a full table with no mid-run exception; in
`ai_negative_growth` the `multiplier_denom` line calls a dict literal, so
for every parameter set and every admissible `dt > 0`, `t_end ≥ 0` the run
raises `TypeError` during its first loop iteration and returns nothing. -/
theorem claim_C4 (p : NegGrowth.Params) (dt tEnd : ℚ) (hdt : 0 < dt)
    (ht : 0 ≤ tEnd) :
    NegGrowth.runE p dt tEnd = Except.error NegGrowth.dictCallError := by
  rw [NegGrowth.runE]
  exact SD.loopE_error_of_computeE (fun s => negGrowth_computeE_error p s) _ _ _
    (SD.numRows_pos hdt ht)

/-- **C4 witness**: the default sliders with `dt = 1/4`, `t_end = 60`. -/
theorem claim_C4_witness :
    (0 : ℚ) < 1/4 ∧ (0 : ℚ) ≤ 60 ∧
    NegGrowth.runE NegGrowth.defaults (1/4) 60 = Except.error NegGrowth.dictCallError :=
  ⟨by norm_num, by norm_num,
    claim_C4 NegGrowth.defaults (1/4) 60 (by norm_num) (by norm_num)⟩
/-- **C6.** For every app, two executions of `run_simulation` with
identical parameter values, `dt`, and `t_end` produce identical result
tables: each run is a function of the recorded parameter values alone (the
embedding of each loop body reads nothing but its arguments). -/
theorem claim_C6 :
    (∀ (p p' : AiAgent.Params) (dt tEnd : ℚ),
      (p.base_capability_growth = p'.base_capability_growth ∧
       p.base_compute_growth = p'.base_compute_growth ∧
       p.capability_threshold = p'.capability_threshold ∧
       p.compute_cost_per_unit = p'.compute_cost_per_unit ∧
       p.compute_per_user = p'.compute_per_user ∧
       p.depreciation_rate = p'.depreciation_rate ∧
       p.displacement_rate = p'.displacement_rate ∧
       p.imitation_rate = p'.imitation_rate ∧
       p.innovation_rate = p'.innovation_rate ∧
       p.potential_market = p'.potential_market ∧
       p.reinvestment_fraction = p'.reinvestment_fraction ∧
       p.revenue_per_user = p'.revenue_per_user) →
      AiAgent.run p dt tEnd = AiAgent.run p' dt tEnd) ∧
    (∀ (p p' : AiCapex.Params) (dt tEnd : ℚ),
      (p.base_capex_rate = p'.base_capex_rate ∧
       p.base_hiring_rate = p'.base_hiring_rate ∧
       p.base_tech_workforce = p'.base_tech_workforce ∧
       p.deployment_lag = p'.deployment_lag ∧
       p.displacement_intensity = p'.displacement_intensity ∧
       p.expected_roi = p'.expected_roi ∧
       p.infrastructure_life = p'.infrastructure_life ∧
       p.reference_valuation = p'.reference_valuation ∧
       p.revenue_per_capacity = p'.revenue_per_capacity ∧
       p.valuation_sensitivity = p'.valuation_sensitivity) →
      AiCapex.run p dt tEnd = AiCapex.run p' dt tEnd) ∧
    (∀ (p p' : Silver.Params) (dt tEnd : ℚ),
      (p.base_industrial_demand = p'.base_industrial_demand ∧
       p.china_export_fraction = p'.china_export_fraction ∧
       p.geopolitical_pressure = p'.geopolitical_pressure ∧
       p.institutional_dampening = p'.institutional_dampening ∧
       p.price_adjustment_speed = p'.price_adjustment_speed ∧
       p.reference_inventory = p'.reference_inventory ∧
       p.restriction_rate = p'.restriction_rate ∧
       p.retail_buy_intensity = p'.retail_buy_intensity ∧
       p.sentiment_decay_rate = p'.sentiment_decay_rate ∧
       p.social_media_amplifier = p'.social_media_amplifier ∧
       p.solar_demand_growth = p'.solar_demand_growth ∧
       p.western_supply_base = p'.western_supply_base) →
      Silver.run p dt tEnd = Silver.run p' dt tEnd) ∧
    (∀ (p p' : SodiumBattery.Params) (dt tEnd : ℚ),
      (p.baseline_growth_rate = p'.baseline_growth_rate ∧
       p.battery_lifetime = p'.battery_lifetime ∧
       p.capacity_utilization = p'.capacity_utilization ∧
       p.coal_base_price = p'.coal_base_price ∧
       p.coal_retirement_rate = p'.coal_retirement_rate ∧
       p.cost_decline_rate = p'.cost_decline_rate ∧
       p.discharge_hours = p'.discharge_hours ∧
       p.gas_base_price = p'.gas_base_price ∧
       p.gas_retirement_rate = p'.gas_retirement_rate ∧
       p.investment_budget = p'.investment_budget ∧
       p.round_trip_efficiency = p'.round_trip_efficiency) →
      SodiumBattery.run p dt tEnd = SodiumBattery.run p' dt tEnd) ∧
    (∀ (p p' : SolarAi.Params) (dt tEnd : ℚ),
      (p.battery_efficiency = p'.battery_efficiency ∧
       p.battery_lifetime = p'.battery_lifetime ∧
       p.capacity_factor = p'.capacity_factor ∧
       p.connection_rate = p'.connection_rate ∧
       p.cost_learning_rate = p'.cost_learning_rate ∧
       p.demand_growth_rate = p'.demand_growth_rate ∧
       p.discharge_hours = p'.discharge_hours ∧
       p.panel_lifetime = p'.panel_lifetime ∧
       p.solar_investment = p'.solar_investment ∧
       p.storage_investment = p'.storage_investment ∧
       p.storage_unit_cost = p'.storage_unit_cost) →
      SolarAi.run p dt tEnd = SolarAi.run p' dt tEnd) ∧
    (∀ (p p' : StructuralOil.Params) (dt tEnd : ℚ),
      (p.annual_demand_growth_fraction = p'.annual_demand_growth_fraction ∧
       p.barrels_per_ev_per_day = p'.barrels_per_ev_per_day ∧
       p.base_ev_growth_rate = p'.base_ev_growth_rate ∧
       p.breakeven_price = p'.breakeven_price ∧
       p.displacement_efficiency = p'.displacement_efficiency ∧
       p.investment_response_factor = p'.investment_response_factor ∧
       p.natural_decline_fraction = p'.natural_decline_fraction ∧
       p.positive_incentive_filter = p'.positive_incentive_filter ∧
       p.price_elasticity = p'.price_elasticity ∧
       p.price_sensitivity = p'.price_sensitivity ∧
       p.realistic_peak_demand_estimate = p'.realistic_peak_demand_estimate ∧
       p.reference_oil_price = p'.reference_oil_price ∧
       p.vitol_peak_demand_projection = p'.vitol_peak_demand_projection) →
      StructuralOil.run p dt tEnd = StructuralOil.run p' dt tEnd) ∧
    (∀ (p p' : NegGrowth.Params) (dt tEnd : ℚ),
      (p.ai_growth_rate = p'.ai_growth_rate ∧
       p.ai_productivity_gain = p'.ai_productivity_gain ∧
       p.ai_productivity_max = p'.ai_productivity_max ∧
       p.base_consumption = p'.base_consumption ∧
       p.consumption_gain = p'.consumption_gain ∧
       p.depreciation_fraction = p'.depreciation_fraction ∧
       p.displacement_speed = p'.displacement_speed ∧
       p.min_labor_share = p'.min_labor_share ∧
       p.mpc_owners = p'.mpc_owners ∧
       p.mpc_spread = p'.mpc_spread ∧
       p.mpc_workers = p'.mpc_workers ∧
       p.owner_reinvestment_rate = p'.owner_reinvestment_rate ∧
       p.ubi_rate = p'.ubi_rate ∧
       p.worker_savings_rate = p'.worker_savings_rate) →
      NegGrowth.runE p dt tEnd = NegGrowth.runE p' dt tEnd) := by
  refine ⟨?_, ?_, ?_, ?_, ?_, ?_, ?_⟩
  · intro p p' dt tEnd h
    cases p
    cases p'
    simp only at h
    obtain ⟨h1, h2, h3, h4, h5, h6, h7, h8, h9, h10, h11, h12⟩ := h
    subst h1 h2 h3 h4 h5 h6 h7 h8 h9 h10 h11 h12
    rfl
  · intro p p' dt tEnd h
    cases p
    cases p'
    simp only at h
    obtain ⟨h1, h2, h3, h4, h5, h6, h7, h8, h9, h10⟩ := h
    subst h1 h2 h3 h4 h5 h6 h7 h8 h9 h10
    rfl
  · intro p p' dt tEnd h
    cases p
    cases p'
    simp only at h
    obtain ⟨h1, h2, h3, h4, h5, h6, h7, h8, h9, h10, h11, h12⟩ := h
    subst h1 h2 h3 h4 h5 h6 h7 h8 h9 h10 h11 h12
    rfl
  · intro p p' dt tEnd h
    cases p
    cases p'
    simp only at h
    obtain ⟨h1, h2, h3, h4, h5, h6, h7, h8, h9, h10, h11⟩ := h
    subst h1 h2 h3 h4 h5 h6 h7 h8 h9 h10 h11
    rfl
  · intro p p' dt tEnd h
    cases p
    cases p'
    simp only at h
    obtain ⟨h1, h2, h3, h4, h5, h6, h7, h8, h9, h10, h11⟩ := h
    subst h1 h2 h3 h4 h5 h6 h7 h8 h9 h10 h11
    rfl
  · intro p p' dt tEnd h
    cases p
    cases p'
    simp only at h
    obtain ⟨h1, h2, h3, h4, h5, h6, h7, h8, h9, h10, h11, h12, h13⟩ := h
    subst h1 h2 h3 h4 h5 h6 h7 h8 h9 h10 h11 h12 h13
    rfl
  · intro p p' dt tEnd h
    cases p
    cases p'
    simp only at h
    obtain ⟨h1, h2, h3, h4, h5, h6, h7, h8, h9, h10, h11, h12, h13, h14⟩ := h
    subst h1 h2 h3 h4 h5 h6 h7 h8 h9 h10 h11 h12 h13 h14
    rfl

/-- **C6 witness**: the `ai_agent_disruption` defaults compared with
themselves at `dt = 1`, `t_end = 1`. -/
theorem claim_C6_witness :
    AiAgent.run AiAgent.defaults 1 1 = AiAgent.run AiAgent.defaults 1 1 :=
  claim_C6.1 AiAgent.defaults AiAgent.defaults 1 1
    ⟨rfl, rfl, rfl, rfl, rfl, rfl, rfl, rfl, rfl, rfl, rfl, rfl⟩

/-- **C7.** For every run and every index `i` into the produced rows,
`rows[i+1].time - rows[i].time = dt` (exactly, in the rational embedding),
row times are strictly increasing when `dt > 0`, and the first row is at
`t = 0`.  (`ai_negative_growth` produces no rows, so it has no row times.) -/
theorem claim_C7 :
    (∀ (p : AiAgent.Params) (dt tEnd : ℚ),
      (∀ (i : ℕ) (h : i + 1 < (AiAgent.run p dt tEnd).length),
        ((AiAgent.run p dt tEnd).get ⟨i + 1, h⟩).1 - ((AiAgent.run p dt tEnd).get ⟨i, Nat.lt_of_succ_lt h⟩).1 = dt) ∧
      (0 < dt → ∀ (i : ℕ) (h : i + 1 < (AiAgent.run p dt tEnd).length),
        ((AiAgent.run p dt tEnd).get ⟨i, Nat.lt_of_succ_lt h⟩).1 < ((AiAgent.run p dt tEnd).get ⟨i + 1, h⟩).1) ∧
      (∀ h0 : 0 < (AiAgent.run p dt tEnd).length, ((AiAgent.run p dt tEnd).get ⟨0, h0⟩).1 = 0)) ∧
    (∀ (p : AiCapex.Params) (dt tEnd : ℚ),
      (∀ (i : ℕ) (h : i + 1 < (AiCapex.run p dt tEnd).length),
        ((AiCapex.run p dt tEnd).get ⟨i + 1, h⟩).1 - ((AiCapex.run p dt tEnd).get ⟨i, Nat.lt_of_succ_lt h⟩).1 = dt) ∧
      (0 < dt → ∀ (i : ℕ) (h : i + 1 < (AiCapex.run p dt tEnd).length),
        ((AiCapex.run p dt tEnd).get ⟨i, Nat.lt_of_succ_lt h⟩).1 < ((AiCapex.run p dt tEnd).get ⟨i + 1, h⟩).1) ∧
      (∀ h0 : 0 < (AiCapex.run p dt tEnd).length, ((AiCapex.run p dt tEnd).get ⟨0, h0⟩).1 = 0)) ∧
    (∀ (p : Silver.Params) (dt tEnd : ℚ),
      (∀ (i : ℕ) (h : i + 1 < (Silver.run p dt tEnd).length),
        ((Silver.run p dt tEnd).get ⟨i + 1, h⟩).1 - ((Silver.run p dt tEnd).get ⟨i, Nat.lt_of_succ_lt h⟩).1 = dt) ∧
      (0 < dt → ∀ (i : ℕ) (h : i + 1 < (Silver.run p dt tEnd).length),
        ((Silver.run p dt tEnd).get ⟨i, Nat.lt_of_succ_lt h⟩).1 < ((Silver.run p dt tEnd).get ⟨i + 1, h⟩).1) ∧
      (∀ h0 : 0 < (Silver.run p dt tEnd).length, ((Silver.run p dt tEnd).get ⟨0, h0⟩).1 = 0)) ∧
    (∀ (p : SodiumBattery.Params) (dt tEnd : ℚ),
      (∀ (i : ℕ) (h : i + 1 < (SodiumBattery.run p dt tEnd).length),
        ((SodiumBattery.run p dt tEnd).get ⟨i + 1, h⟩).1 - ((SodiumBattery.run p dt tEnd).get ⟨i, Nat.lt_of_succ_lt h⟩).1 = dt) ∧
      (0 < dt → ∀ (i : ℕ) (h : i + 1 < (SodiumBattery.run p dt tEnd).length),
        ((SodiumBattery.run p dt tEnd).get ⟨i, Nat.lt_of_succ_lt h⟩).1 < ((SodiumBattery.run p dt tEnd).get ⟨i + 1, h⟩).1) ∧
      (∀ h0 : 0 < (SodiumBattery.run p dt tEnd).length, ((SodiumBattery.run p dt tEnd).get ⟨0, h0⟩).1 = 0)) ∧
    (∀ (p : SolarAi.Params) (dt tEnd : ℚ),
      (∀ (i : ℕ) (h : i + 1 < (SolarAi.run p dt tEnd).length),
        ((SolarAi.run p dt tEnd).get ⟨i + 1, h⟩).1 - ((SolarAi.run p dt tEnd).get ⟨i, Nat.lt_of_succ_lt h⟩).1 = dt) ∧
      (0 < dt → ∀ (i : ℕ) (h : i + 1 < (SolarAi.run p dt tEnd).length),
        ((SolarAi.run p dt tEnd).get ⟨i, Nat.lt_of_succ_lt h⟩).1 < ((SolarAi.run p dt tEnd).get ⟨i + 1, h⟩).1) ∧
      (∀ h0 : 0 < (SolarAi.run p dt tEnd).length, ((SolarAi.run p dt tEnd).get ⟨0, h0⟩).1 = 0)) ∧
    (∀ (p : StructuralOil.Params) (dt tEnd : ℚ),
      (∀ (i : ℕ) (h : i + 1 < (StructuralOil.run p dt tEnd).length),
        ((StructuralOil.run p dt tEnd).get ⟨i + 1, h⟩).1 - ((StructuralOil.run p dt tEnd).get ⟨i, Nat.lt_of_succ_lt h⟩).1 = dt) ∧
      (0 < dt → ∀ (i : ℕ) (h : i + 1 < (StructuralOil.run p dt tEnd).length),
        ((StructuralOil.run p dt tEnd).get ⟨i, Nat.lt_of_succ_lt h⟩).1 < ((StructuralOil.run p dt tEnd).get ⟨i + 1, h⟩).1) ∧
      (∀ h0 : 0 < (StructuralOil.run p dt tEnd).length, ((StructuralOil.run p dt tEnd).get ⟨0, h0⟩).1 = 0)) := by
  refine ⟨?_, ?_, ?_, ?_, ?_, ?_⟩
  · intro p dt tEnd
    refine ⟨?_, ?_, ?_⟩
    · intro i h
      rw [agent_run_get, agent_run_get]
      push_cast
      ring
    · intro hdt i h
      rw [agent_run_get, agent_run_get]
      have : (i : ℚ) * dt < ((i : ℚ) + 1) * dt :=
        mul_lt_mul_of_pos_right (by linarith) hdt
      push_cast
      linarith
    · intro h0
      rw [agent_run_get]
      simp
  · intro p dt tEnd
    refine ⟨?_, ?_, ?_⟩
    · intro i h
      rw [capex_run_get, capex_run_get]
      push_cast
      ring
    · intro hdt i h
      rw [capex_run_get, capex_run_get]
      have : (i : ℚ) * dt < ((i : ℚ) + 1) * dt :=
        mul_lt_mul_of_pos_right (by linarith) hdt
      push_cast
      linarith
    · intro h0
      rw [capex_run_get]
      simp
  · intro p dt tEnd
    refine ⟨?_, ?_, ?_⟩
    · intro i h
      rw [silver_run_get, silver_run_get]
      push_cast
      ring
    · intro hdt i h
      rw [silver_run_get, silver_run_get]
      have : (i : ℚ) * dt < ((i : ℚ) + 1) * dt :=
        mul_lt_mul_of_pos_right (by linarith) hdt
      push_cast
      linarith
    · intro h0
      rw [silver_run_get]
      simp
  · intro p dt tEnd
    refine ⟨?_, ?_, ?_⟩
    · intro i h
      rw [sodium_run_get, sodium_run_get]
      push_cast
      ring
    · intro hdt i h
      rw [sodium_run_get, sodium_run_get]
      have : (i : ℚ) * dt < ((i : ℚ) + 1) * dt :=
        mul_lt_mul_of_pos_right (by linarith) hdt
      push_cast
      linarith
    · intro h0
      rw [sodium_run_get]
      simp
  · intro p dt tEnd
    refine ⟨?_, ?_, ?_⟩
    · intro i h
      rw [solar_run_get, solar_run_get]
      push_cast
      ring
    · intro hdt i h
      rw [solar_run_get, solar_run_get]
      have : (i : ℚ) * dt < ((i : ℚ) + 1) * dt :=
        mul_lt_mul_of_pos_right (by linarith) hdt
      push_cast
      linarith
    · intro h0
      rw [solar_run_get]
      simp
  · intro p dt tEnd
    refine ⟨?_, ?_, ?_⟩
    · intro i h
      rw [oil_run_get, oil_run_get]
      push_cast
      ring
    · intro hdt i h
      rw [oil_run_get, oil_run_get]
      have : (i : ℚ) * dt < ((i : ℚ) + 1) * dt :=
        mul_lt_mul_of_pos_right (by linarith) hdt
      push_cast
      linarith
    · intro h0
      rw [oil_run_get]
      simp

/-- **C7 witness**: the time step between rows 0 and 1 of the
`ai_agent_disruption` defaults with `dt = 1`, `t_end = 1`. -/
theorem claim_C7_witness :
    ((AiAgent.run AiAgent.defaults 1 1).get
        ⟨0 + 1, by rw [agent_run_length, numRows_1_1]; norm_num⟩).1 -
      ((AiAgent.run AiAgent.defaults 1 1).get
        ⟨0, by rw [agent_run_length, numRows_1_1]; norm_num⟩).1 = 1 :=
  (claim_C7.1 AiAgent.defaults 1 1).1 0
    (by rw [agent_run_length, numRows_1_1]; norm_num)

/-- **C9 counterexample**: the claim bounds the number of iterations by
`t_end/dt + 1`; for `dt = 9/5`, `t_end = 3` (both admissible UI values) a
`sodium_battery_energy` run performs `⌊3/(9/5) + 1/2⌋ + 1 = 3 > 3/(9/5) + 1`
iterations. -/
theorem claim_C9_counterexample :
    (SodiumBattery.run SodiumBattery.defaults (9/5) 3).length = 3 ∧
    ¬ (((SodiumBattery.run SodiumBattery.defaults (9/5) 3).length : ℚ) ≤ 3 / (9/5) + 1) := by
  have hlen : (SodiumBattery.run SodiumBattery.defaults (9/5) 3).length = 3 := by
    rw [sodium_run_length, numRows_95_3]
  refine ⟨hlen, ?_⟩
  rw [hlen]
  norm_num

/-- **C9** (as amended).  For every app and every `dt > 0`, `t_end ≥ 0`,
the simulation `while` loop is a single bounded computation: it terminates
(the literal `while` embedding agrees with the fuel-indexed loop), entering
at most `⌊t_end/dt + 1/2⌋ + 1` iterations, which is at most `t_end/dt + 3/2`
— not `t_end/dt + 1` as claimed, which fails whenever the fractional part of
`t_end/dt` is at least `1/2` (see the counterexample).  Runs that raise
mid-loop stop even earlier: `ai_negative_growth` always aborts during its
first iteration (last conjunct), and `structural_oil_supply_shortage` aborts
at inputs where a denominator reaches zero (see C5). -/
theorem claim_C9 :
    (∀ (p : AiAgent.Params) (dt tEnd : ℚ), 0 < dt → 0 ≤ tEnd →
      AiAgent.runW p dt tEnd = AiAgent.run p dt tEnd ∧
      ((AiAgent.run p dt tEnd).length : ℚ) ≤ tEnd / dt + 3/2) ∧
    (∀ (p : AiCapex.Params) (dt tEnd : ℚ), 0 < dt → 0 ≤ tEnd →
      AiCapex.runW p dt tEnd = AiCapex.run p dt tEnd ∧
      ((AiCapex.run p dt tEnd).length : ℚ) ≤ tEnd / dt + 3/2) ∧
    (∀ (p : Silver.Params) (dt tEnd : ℚ), 0 < dt → 0 ≤ tEnd →
      Silver.runW p dt tEnd = Silver.run p dt tEnd ∧
      ((Silver.run p dt tEnd).length : ℚ) ≤ tEnd / dt + 3/2) ∧
    (∀ (p : SodiumBattery.Params) (dt tEnd : ℚ), 0 < dt → 0 ≤ tEnd →
      SodiumBattery.runW p dt tEnd = SodiumBattery.run p dt tEnd ∧
      ((SodiumBattery.run p dt tEnd).length : ℚ) ≤ tEnd / dt + 3/2) ∧
    (∀ (p : SolarAi.Params) (dt tEnd : ℚ), 0 < dt → 0 ≤ tEnd →
      SolarAi.runW p dt tEnd = SolarAi.run p dt tEnd ∧
      ((SolarAi.run p dt tEnd).length : ℚ) ≤ tEnd / dt + 3/2) ∧
    (∀ (p : StructuralOil.Params) (dt tEnd : ℚ), 0 < dt → 0 ≤ tEnd →
      StructuralOil.runW p dt tEnd = StructuralOil.run p dt tEnd ∧
      ((StructuralOil.run p dt tEnd).length : ℚ) ≤ tEnd / dt + 3/2) ∧
    (∀ (p : NegGrowth.Params) (dt tEnd : ℚ), 0 < dt → 0 ≤ tEnd →
      NegGrowth.runE p dt tEnd = Except.error NegGrowth.dictCallError ∧
      ((SD.numRows dt tEnd : ℚ) ≤ tEnd / dt + 3/2)) := by
  refine ⟨?_, ?_, ?_, ?_, ?_, ?_, ?_⟩
  · intro p dt tEnd hdt ht
    refine ⟨SD.whileLoop_eq_loop_numRows _ _ _ _ hdt _, ?_⟩
    rw [agent_run_length]
    exact_mod_cast SD.numRows_le hdt ht
  · intro p dt tEnd hdt ht
    refine ⟨SD.whileLoop_eq_loop_numRows _ _ _ _ hdt _, ?_⟩
    rw [capex_run_length]
    exact_mod_cast SD.numRows_le hdt ht
  · intro p dt tEnd hdt ht
    refine ⟨SD.whileLoop_eq_loop_numRows _ _ _ _ hdt _, ?_⟩
    rw [silver_run_length]
    exact_mod_cast SD.numRows_le hdt ht
  · intro p dt tEnd hdt ht
    refine ⟨SD.whileLoop_eq_loop_numRows _ _ _ _ hdt _, ?_⟩
    rw [sodium_run_length]
    exact_mod_cast SD.numRows_le hdt ht
  · intro p dt tEnd hdt ht
    refine ⟨SD.whileLoop_eq_loop_numRows _ _ _ _ hdt _, ?_⟩
    rw [solar_run_length]
    exact_mod_cast SD.numRows_le hdt ht
  · intro p dt tEnd hdt ht
    refine ⟨SD.whileLoop_eq_loop_numRows _ _ _ _ hdt _, ?_⟩
    rw [oil_run_length]
    exact_mod_cast SD.numRows_le hdt ht
  · intro p dt tEnd hdt ht
    refine ⟨?_, SD.numRows_le hdt ht⟩
    rw [NegGrowth.runE]
    exact SD.loopE_error_of_computeE (fun s => negGrowth_computeE_error p s) _ _ _
      (SD.numRows_pos hdt ht)

/-- **C9 witness**: the `ai_agent_disruption` defaults at `dt = 1`,
`t_end = 1`. -/
theorem claim_C9_witness :
    AiAgent.runW AiAgent.defaults 1 1 = AiAgent.run AiAgent.defaults 1 1 ∧
    ((AiAgent.run AiAgent.defaults 1 1).length : ℚ) ≤ 1 / 1 + 3/2 :=
  claim_C9.1 AiAgent.defaults 1 1 (by norm_num) (by norm_num)

/-- **C10.** For every app, the stock values recorded in the first row are
exactly the hard-coded initial constants, independent of every slider
parameter, `dt` and `t_end`: any two runs have identical stock entries in
row 0.  (`ai_negative_growth` returns no rows at all.) -/
theorem claim_C10 :
    (∀ (p p' : AiAgent.Params) (dt dt' tEnd tEnd' : ℚ)
      (h0 : 0 < (AiAgent.run p dt tEnd).length) (h0' : 0 < (AiAgent.run p' dt' tEnd').length),
      ((AiAgent.run p dt tEnd).get ⟨0, h0⟩).2.1 = AiAgent.init ∧
      ((AiAgent.run p dt tEnd).get ⟨0, h0⟩).2.1 = ((AiAgent.run p' dt' tEnd').get ⟨0, h0'⟩).2.1) ∧
    (∀ (p p' : AiCapex.Params) (dt dt' tEnd tEnd' : ℚ)
      (h0 : 0 < (AiCapex.run p dt tEnd).length) (h0' : 0 < (AiCapex.run p' dt' tEnd').length),
      ((AiCapex.run p dt tEnd).get ⟨0, h0⟩).2.1 = AiCapex.init ∧
      ((AiCapex.run p dt tEnd).get ⟨0, h0⟩).2.1 = ((AiCapex.run p' dt' tEnd').get ⟨0, h0'⟩).2.1) ∧
    (∀ (p p' : Silver.Params) (dt dt' tEnd tEnd' : ℚ)
      (h0 : 0 < (Silver.run p dt tEnd).length) (h0' : 0 < (Silver.run p' dt' tEnd').length),
      ((Silver.run p dt tEnd).get ⟨0, h0⟩).2.1 = Silver.init ∧
      ((Silver.run p dt tEnd).get ⟨0, h0⟩).2.1 = ((Silver.run p' dt' tEnd').get ⟨0, h0'⟩).2.1) ∧
    (∀ (p p' : SodiumBattery.Params) (dt dt' tEnd tEnd' : ℚ)
      (h0 : 0 < (SodiumBattery.run p dt tEnd).length) (h0' : 0 < (SodiumBattery.run p' dt' tEnd').length),
      ((SodiumBattery.run p dt tEnd).get ⟨0, h0⟩).2.1 = SodiumBattery.init ∧
      ((SodiumBattery.run p dt tEnd).get ⟨0, h0⟩).2.1 = ((SodiumBattery.run p' dt' tEnd').get ⟨0, h0'⟩).2.1) ∧
    (∀ (p p' : SolarAi.Params) (dt dt' tEnd tEnd' : ℚ)
      (h0 : 0 < (SolarAi.run p dt tEnd).length) (h0' : 0 < (SolarAi.run p' dt' tEnd').length),
      ((SolarAi.run p dt tEnd).get ⟨0, h0⟩).2.1 = SolarAi.init ∧
      ((SolarAi.run p dt tEnd).get ⟨0, h0⟩).2.1 = ((SolarAi.run p' dt' tEnd').get ⟨0, h0'⟩).2.1) ∧
    (∀ (p p' : StructuralOil.Params) (dt dt' tEnd tEnd' : ℚ)
      (h0 : 0 < (StructuralOil.run p dt tEnd).length) (h0' : 0 < (StructuralOil.run p' dt' tEnd').length),
      ((StructuralOil.run p dt tEnd).get ⟨0, h0⟩).2.1 = StructuralOil.init ∧
      ((StructuralOil.run p dt tEnd).get ⟨0, h0⟩).2.1 = ((StructuralOil.run p' dt' tEnd').get ⟨0, h0'⟩).2.1) := by
  refine ⟨?_, ?_, ?_, ?_, ?_, ?_⟩
  · intro p p' dt dt' tEnd tEnd' h0 h0'
    constructor
    · rw [agent_run_get]
      simp
    · rw [agent_run_get, agent_run_get]
      simp
  · intro p p' dt dt' tEnd tEnd' h0 h0'
    constructor
    · rw [capex_run_get]
      simp
    · rw [capex_run_get, capex_run_get]
      simp
  · intro p p' dt dt' tEnd tEnd' h0 h0'
    constructor
    · rw [silver_run_get]
      simp
    · rw [silver_run_get, silver_run_get]
      simp
  · intro p p' dt dt' tEnd tEnd' h0 h0'
    constructor
    · rw [sodium_run_get]
      simp
    · rw [sodium_run_get, sodium_run_get]
      simp
  · intro p p' dt dt' tEnd tEnd' h0 h0'
    constructor
    · rw [solar_run_get]
      simp
    · rw [solar_run_get, solar_run_get]
      simp
  · intro p p' dt dt' tEnd tEnd' h0 h0'
    constructor
    · rw [oil_run_get]
      simp
    · rw [oil_run_get, oil_run_get]
      simp

/-- **C10 witness**: row 0 of the `ai_agent_disruption` defaults equals the
declared initial stocks, and matches row 0 of a run with different
parameters (`crash`-free variation via `potential_market`). -/
theorem claim_C10_witness :
    ((AiAgent.run AiAgent.defaults 1 1).get
        ⟨0, by rw [agent_run_length, numRows_1_1]; norm_num⟩).2.1 = AiAgent.init ∧
    ((AiAgent.run AiAgent.defaults 1 1).get
        ⟨0, by rw [agent_run_length, numRows_1_1]; norm_num⟩).2.1 =
      ((AiAgent.run AiAgent.defaults (1/2) 20).get
        ⟨0, by rw [agent_run_length, numRows_half_20]; norm_num⟩).2.1 :=
  claim_C10.1 AiAgent.defaults AiAgent.defaults 1 (1/2) 1 20
    (by rw [agent_run_length, numRows_1_1]; norm_num)
    (by rw [agent_run_length, numRows_half_20]; norm_num)

/-- **C8.** For every app and every stock, if the net rate applied to that
stock (the source's combination of the flow values recorded in each row)
evaluates to 0 at every row of a run, that stock's column is constant across
all rows, equal to its declared initial value.  One conjunct per stock of
each app that produces rows (`ai_negative_growth` produces none). -/
theorem claim_C8 :
    (∀ (p : StructuralOil.Params) (dt tEnd : ℚ),
      (∀ r ∈ StructuralOil.run p dt tEnd, r.2.2.new_capacity_investment - r.2.2.field_decline_rate = 0) →
      ∀ r ∈ StructuralOil.run p dt tEnd, r.2.1.oil_supply_capacity = 107) ∧
    (∀ (p : StructuralOil.Params) (dt tEnd : ℚ),
      (∀ r ∈ StructuralOil.run p dt tEnd, r.2.2.ev_adoption_rate = 0) →
      ∀ r ∈ StructuralOil.run p dt tEnd, r.2.1.cumulative_ev_fleet = 22) ∧
    (∀ (p : StructuralOil.Params) (dt tEnd : ℚ),
      (∀ r ∈ StructuralOil.run p dt tEnd, r.2.2.demand_increase_rate = 0) →
      ∀ r ∈ StructuralOil.run p dt tEnd, r.2.1.base_oil_demand_growth = 107) ∧
    (∀ (p : AiAgent.Params) (dt tEnd : ℚ),
      (∀ r ∈ AiAgent.run p dt tEnd, r.2.2.capability_growth = 0) →
      ∀ r ∈ AiAgent.run p dt tEnd, r.2.1.task_horizon = 1) ∧
    (∀ (p : AiAgent.Params) (dt tEnd : ℚ),
      (∀ r ∈ AiAgent.run p dt tEnd, r.2.2.new_adoptions = 0) →
      ∀ r ∈ AiAgent.run p dt tEnd, r.2.1.agent_users = 50) ∧
    (∀ (p : AiAgent.Params) (dt tEnd : ℚ),
      (∀ r ∈ AiAgent.run p dt tEnd, 0 - r.2.2.revenue_displacement = 0) →
      ∀ r ∈ AiAgent.run p dt tEnd, r.2.1.saas_revenue = 300) ∧
    (∀ (p : AiAgent.Params) (dt tEnd : ℚ),
      (∀ r ∈ AiAgent.run p dt tEnd, r.2.2.compute_investment - r.2.2.compute_depreciation = 0) →
      ∀ r ∈ AiAgent.run p dt tEnd, r.2.1.gpu_compute = 100) ∧
    (∀ (p : AiCapex.Params) (dt tEnd : ℚ),
      (∀ r ∈ AiCapex.run p dt tEnd, r.2.2.new_capex - r.2.2.capacity_deployed = 0) →
      ∀ r ∈ AiCapex.run p dt tEnd, r.2.1.deployment_pipeline = 400) ∧
    (∀ (p : AiCapex.Params) (dt tEnd : ℚ),
      (∀ r ∈ AiCapex.run p dt tEnd, r.2.2.capacity_deployed - r.2.2.capacity_retired = 0) →
      ∀ r ∈ AiCapex.run p dt tEnd, r.2.1.ai_infrastructure = 500) ∧
    (∀ (p : AiCapex.Params) (dt tEnd : ℚ),
      (∀ r ∈ AiCapex.run p dt tEnd, r.2.2.valuation_adjustment = 0) →
      ∀ r ∈ AiCapex.run p dt tEnd, r.2.1.market_cap = 15) ∧
    (∀ (p : AiCapex.Params) (dt tEnd : ℚ),
      (∀ r ∈ AiCapex.run p dt tEnd, r.2.2.tech_hiring - r.2.2.job_displacement = 0) →
      ∀ r ∈ AiCapex.run p dt tEnd, r.2.1.tech_employment = 6) ∧
    (∀ (p : Silver.Params) (dt tEnd : ℚ),
      (∀ r ∈ Silver.run p dt tEnd, r.2.2.western_supply + r.2.2.chinese_export_flow - r.2.2.industrial_demand - r.2.2.net_retail_flow = 0) →
      ∀ r ∈ Silver.run p dt tEnd, r.2.1.warehouse_inventory = 300) ∧
    (∀ (p : Silver.Params) (dt tEnd : ℚ),
      (∀ r ∈ Silver.run p dt tEnd, r.2.2.net_retail_flow = 0) →
      ∀ r ∈ Silver.run p dt tEnd, r.2.1.retail_holdings = 200) ∧
    (∀ (p : Silver.Params) (dt tEnd : ℚ),
      (∀ r ∈ Silver.run p dt tEnd, r.2.2.price_change = 0) →
      ∀ r ∈ Silver.run p dt tEnd, r.2.1.silver_price = 30) ∧
    (∀ (p : Silver.Params) (dt tEnd : ℚ),
      (∀ r ∈ Silver.run p dt tEnd, 0 - r.2.2.export_restriction = 0) →
      ∀ r ∈ Silver.run p dt tEnd, r.2.1.chinese_export_capacity = 80) ∧
    (∀ (p : Silver.Params) (dt tEnd : ℚ),
      (∀ r ∈ Silver.run p dt tEnd, r.2.2.sentiment_change = 0) →
      ∀ r ∈ Silver.run p dt tEnd, r.2.1.retail_sentiment = 3/10) ∧
    (∀ (p : SodiumBattery.Params) (dt tEnd : ℚ),
      (∀ r ∈ SodiumBattery.run p dt tEnd, r.2.2.new_installations - r.2.2.retirements = 0) →
      ∀ r ∈ SodiumBattery.run p dt tEnd, r.2.1.installed_capacity = 100) ∧
    (∀ (p : SodiumBattery.Params) (dt tEnd : ℚ),
      (∀ r ∈ SodiumBattery.run p dt tEnd, 0 - r.2.2.cost_reduction = 0) →
      ∀ r ∈ SodiumBattery.run p dt tEnd, r.2.1.unit_cost = 8/100) ∧
    (∀ (p : SodiumBattery.Params) (dt tEnd : ℚ),
      (∀ r ∈ SodiumBattery.run p dt tEnd, r.2.2.demand_growth = 0) →
      ∀ r ∈ SodiumBattery.run p dt tEnd, r.2.1.total_demand = 5000) ∧
    (∀ (p : SodiumBattery.Params) (dt tEnd : ℚ),
      (∀ r ∈ SodiumBattery.run p dt tEnd, 0 - r.2.2.gas_displaced = 0) →
      ∀ r ∈ SodiumBattery.run p dt tEnd, r.2.1.gas_generation = 1500) ∧
    (∀ (p : SodiumBattery.Params) (dt tEnd : ℚ),
      (∀ r ∈ SodiumBattery.run p dt tEnd, 0 - r.2.2.coal_displaced = 0) →
      ∀ r ∈ SodiumBattery.run p dt tEnd, r.2.1.coal_generation = 2000) ∧
    (∀ (p : SolarAi.Params) (dt tEnd : ℚ),
      (∀ r ∈ SolarAi.run p dt tEnd, r.2.2.grid_connections - r.2.2.panel_retirements = 0) →
      ∀ r ∈ SolarAi.run p dt tEnd, r.2.1.solar_capacity = 2300) ∧
    (∀ (p : SolarAi.Params) (dt tEnd : ℚ),
      (∀ r ∈ SolarAi.run p dt tEnd, r.2.2.demand_increase = 0) →
      ∀ r ∈ SolarAi.run p dt tEnd, r.2.1.data_center_demand = 50) ∧
    (∀ (p : SolarAi.Params) (dt tEnd : ℚ),
      (∀ r ∈ SolarAi.run p dt tEnd, 0 - r.2.2.cost_reduction = 0) →
      ∀ r ∈ SolarAi.run p dt tEnd, r.2.1.solar_cost = 1) ∧
    (∀ (p : SolarAi.Params) (dt tEnd : ℚ),
      (∀ r ∈ SolarAi.run p dt tEnd, r.2.2.storage_deployed - r.2.2.storage_retired = 0) →
      ∀ r ∈ SolarAi.run p dt tEnd, r.2.1.battery_storage = 200) ∧
    (∀ (p : SolarAi.Params) (dt tEnd : ℚ),
      (∀ r ∈ SolarAi.run p dt tEnd, r.2.2.project_submissions - r.2.2.grid_connections = 0) →
      ∀ r ∈ SolarAi.run p dt tEnd, r.2.1.grid_queue = 1100) := by
  refine ⟨?_, ?_, ?_, ?_, ?_, ?_, ?_, ?_, ?_, ?_, ?_, ?_, ?_, ?_, ?_, ?_, ?_, ?_, ?_, ?_, ?_, ?_, ?_, ?_, ?_, ?_⟩
  · intro p dt tEnd hz r hr
    have := SD.loop_const (StructuralOil.compute p) (StructuralOil.update p dt) dt
      (fun s => s.oil_supply_capacity) (0) (fun k => k.new_capacity_investment - k.field_decline_rate) (fun s k => rfl)
      (SD.numRows dt tEnd) 0 StructuralOil.init (by norm_num [StructuralOil.init]) hz r hr
    simpa [StructuralOil.init] using this
  · intro p dt tEnd hz r hr
    have := SD.loop_const (StructuralOil.compute p) (StructuralOil.update p dt) dt
      (fun s => s.cumulative_ev_fleet) (0) (fun k => k.ev_adoption_rate) (fun s k => rfl)
      (SD.numRows dt tEnd) 0 StructuralOil.init (by norm_num [StructuralOil.init]) hz r hr
    simpa [StructuralOil.init] using this
  · intro p dt tEnd hz r hr
    have := SD.loop_const (StructuralOil.compute p) (StructuralOil.update p dt) dt
      (fun s => s.base_oil_demand_growth) (0) (fun k => k.demand_increase_rate) (fun s k => rfl)
      (SD.numRows dt tEnd) 0 StructuralOil.init (by norm_num [StructuralOil.init]) hz r hr
    simpa [StructuralOil.init] using this
  · intro p dt tEnd hz r hr
    have := SD.loop_const (AiAgent.compute p) (AiAgent.update p dt) dt
      (fun s => s.task_horizon) (0) (fun k => k.capability_growth) (fun s k => rfl)
      (SD.numRows dt tEnd) 0 AiAgent.init (by norm_num [AiAgent.init]) hz r hr
    simpa [AiAgent.init] using this
  · intro p dt tEnd hz r hr
    have := SD.loop_const (AiAgent.compute p) (AiAgent.update p dt) dt
      (fun s => s.agent_users) (0) (fun k => k.new_adoptions) (fun s k => rfl)
      (SD.numRows dt tEnd) 0 AiAgent.init (by norm_num [AiAgent.init]) hz r hr
    simpa [AiAgent.init] using this
  · intro p dt tEnd hz r hr
    have := SD.loop_const (AiAgent.compute p) (AiAgent.update p dt) dt
      (fun s => s.saas_revenue) (0) (fun k => 0 - k.revenue_displacement) (fun s k => rfl)
      (SD.numRows dt tEnd) 0 AiAgent.init (by norm_num [AiAgent.init]) hz r hr
    simpa [AiAgent.init] using this
  · intro p dt tEnd hz r hr
    have := SD.loop_const (AiAgent.compute p) (AiAgent.update p dt) dt
      (fun s => s.gpu_compute) (0) (fun k => k.compute_investment - k.compute_depreciation) (fun s k => rfl)
      (SD.numRows dt tEnd) 0 AiAgent.init (by norm_num [AiAgent.init]) hz r hr
    simpa [AiAgent.init] using this
  · intro p dt tEnd hz r hr
    have := SD.loop_const (AiCapex.compute p) (AiCapex.update p dt) dt
      (fun s => s.deployment_pipeline) (0) (fun k => k.new_capex - k.capacity_deployed) (fun s k => rfl)
      (SD.numRows dt tEnd) 0 AiCapex.init (by norm_num [AiCapex.init]) hz r hr
    simpa [AiCapex.init] using this
  · intro p dt tEnd hz r hr
    have := SD.loop_const (AiCapex.compute p) (AiCapex.update p dt) dt
      (fun s => s.ai_infrastructure) (0) (fun k => k.capacity_deployed - k.capacity_retired) (fun s k => rfl)
      (SD.numRows dt tEnd) 0 AiCapex.init (by norm_num [AiCapex.init]) hz r hr
    simpa [AiCapex.init] using this
  · intro p dt tEnd hz r hr
    have := SD.loop_const (AiCapex.compute p) (AiCapex.update p dt) dt
      (fun s => s.market_cap) (1) (fun k => k.valuation_adjustment) (fun s k => rfl)
      (SD.numRows dt tEnd) 0 AiCapex.init (by norm_num [AiCapex.init]) hz r hr
    simpa [AiCapex.init] using this
  · intro p dt tEnd hz r hr
    have := SD.loop_const (AiCapex.compute p) (AiCapex.update p dt) dt
      (fun s => s.tech_employment) (0) (fun k => k.tech_hiring - k.job_displacement) (fun s k => rfl)
      (SD.numRows dt tEnd) 0 AiCapex.init (by norm_num [AiCapex.init]) hz r hr
    simpa [AiCapex.init] using this
  · intro p dt tEnd hz r hr
    have := SD.loop_const (Silver.compute p) (Silver.update p dt) dt
      (fun s => s.warehouse_inventory) (10) (fun k => k.western_supply + k.chinese_export_flow - k.industrial_demand - k.net_retail_flow) (fun s k => rfl)
      (SD.numRows dt tEnd) 0 Silver.init (by norm_num [Silver.init]) hz r hr
    simpa [Silver.init] using this
  · intro p dt tEnd hz r hr
    have := SD.loop_const (Silver.compute p) (Silver.update p dt) dt
      (fun s => s.retail_holdings) (0) (fun k => k.net_retail_flow) (fun s k => rfl)
      (SD.numRows dt tEnd) 0 Silver.init (by norm_num [Silver.init]) hz r hr
    simpa [Silver.init] using this
  · intro p dt tEnd hz r hr
    have := SD.loop_const (Silver.compute p) (Silver.update p dt) dt
      (fun s => s.silver_price) (5) (fun k => k.price_change) (fun s k => rfl)
      (SD.numRows dt tEnd) 0 Silver.init (by norm_num [Silver.init]) hz r hr
    simpa [Silver.init] using this
  · intro p dt tEnd hz r hr
    have := SD.loop_const (Silver.compute p) (Silver.update p dt) dt
      (fun s => s.chinese_export_capacity) (0) (fun k => 0 - k.export_restriction) (fun s k => rfl)
      (SD.numRows dt tEnd) 0 Silver.init (by norm_num [Silver.init]) hz r hr
    simpa [Silver.init] using this
  · intro p dt tEnd hz r hr
    have := SD.loop_const (Silver.compute p) (Silver.update p dt) dt
      (fun s => s.retail_sentiment) (1/100) (fun k => k.sentiment_change) (fun s k => rfl)
      (SD.numRows dt tEnd) 0 Silver.init (by norm_num [Silver.init]) hz r hr
    simpa [Silver.init] using this
  · intro p dt tEnd hz r hr
    have := SD.loop_const (SodiumBattery.compute p) (SodiumBattery.update p dt) dt
      (fun s => s.installed_capacity) (0) (fun k => k.new_installations - k.retirements) (fun s k => rfl)
      (SD.numRows dt tEnd) 0 SodiumBattery.init (by norm_num [SodiumBattery.init]) hz r hr
    simpa [SodiumBattery.init] using this
  · intro p dt tEnd hz r hr
    have := SD.loop_const (SodiumBattery.compute p) (SodiumBattery.update p dt) dt
      (fun s => s.unit_cost) (1/1000) (fun k => 0 - k.cost_reduction) (fun s k => rfl)
      (SD.numRows dt tEnd) 0 SodiumBattery.init (by norm_num [SodiumBattery.init]) hz r hr
    simpa [SodiumBattery.init] using this
  · intro p dt tEnd hz r hr
    have := SD.loop_const (SodiumBattery.compute p) (SodiumBattery.update p dt) dt
      (fun s => s.total_demand) (0) (fun k => k.demand_growth) (fun s k => rfl)
      (SD.numRows dt tEnd) 0 SodiumBattery.init (by norm_num [SodiumBattery.init]) hz r hr
    simpa [SodiumBattery.init] using this
  · intro p dt tEnd hz r hr
    have := SD.loop_const (SodiumBattery.compute p) (SodiumBattery.update p dt) dt
      (fun s => s.gas_generation) (0) (fun k => 0 - k.gas_displaced) (fun s k => rfl)
      (SD.numRows dt tEnd) 0 SodiumBattery.init (by norm_num [SodiumBattery.init]) hz r hr
    simpa [SodiumBattery.init] using this
  · intro p dt tEnd hz r hr
    have := SD.loop_const (SodiumBattery.compute p) (SodiumBattery.update p dt) dt
      (fun s => s.coal_generation) (0) (fun k => 0 - k.coal_displaced) (fun s k => rfl)
      (SD.numRows dt tEnd) 0 SodiumBattery.init (by norm_num [SodiumBattery.init]) hz r hr
    simpa [SodiumBattery.init] using this
  · intro p dt tEnd hz r hr
    have := SD.loop_const (SolarAi.compute p) (SolarAi.update p dt) dt
      (fun s => s.solar_capacity) (0) (fun k => k.grid_connections - k.panel_retirements) (fun s k => rfl)
      (SD.numRows dt tEnd) 0 SolarAi.init (by norm_num [SolarAi.init]) hz r hr
    simpa [SolarAi.init] using this
  · intro p dt tEnd hz r hr
    have := SD.loop_const (SolarAi.compute p) (SolarAi.update p dt) dt
      (fun s => s.data_center_demand) (0) (fun k => k.demand_increase) (fun s k => rfl)
      (SD.numRows dt tEnd) 0 SolarAi.init (by norm_num [SolarAi.init]) hz r hr
    simpa [SolarAi.init] using this
  · intro p dt tEnd hz r hr
    have := SD.loop_const (SolarAi.compute p) (SolarAi.update p dt) dt
      (fun s => s.solar_cost) (1/100) (fun k => 0 - k.cost_reduction) (fun s k => rfl)
      (SD.numRows dt tEnd) 0 SolarAi.init (by norm_num [SolarAi.init]) hz r hr
    simpa [SolarAi.init] using this
  · intro p dt tEnd hz r hr
    have := SD.loop_const (SolarAi.compute p) (SolarAi.update p dt) dt
      (fun s => s.battery_storage) (0) (fun k => k.storage_deployed - k.storage_retired) (fun s k => rfl)
      (SD.numRows dt tEnd) 0 SolarAi.init (by norm_num [SolarAi.init]) hz r hr
    simpa [SolarAi.init] using this
  · intro p dt tEnd hz r hr
    have := SD.loop_const (SolarAi.compute p) (SolarAi.update p dt) dt
      (fun s => s.grid_queue) (0) (fun k => k.project_submissions - k.grid_connections) (fun s k => rfl)
      (SD.numRows dt tEnd) 0 SolarAi.init (by norm_num [SolarAi.init]) hz r hr
    simpa [SolarAi.init] using this

/-- **C8 witness**: with `annual_demand_growth_fraction = 0` the recorded
`demand_increase_rate` is 0 in every row, and `base_oil_demand_growth` stays
at 107 (checked at row 0 of a `dt = 1`, `t_end = 1` run). -/
theorem claim_C8_witness :
    ((StructuralOil.run StructuralOil.zeroDemandParams 1 1).get
        ⟨0, by rw [oil_run_length, numRows_1_1]; norm_num⟩).2.1.base_oil_demand_growth = 107 :=
  claim_C8.2.2.1 StructuralOil.zeroDemandParams 1 1
    (fun r hr => by
      rw [SD.loop_computed (SD.numRows 1 1) 0 StructuralOil.init r hr]
      simp [StructuralOil.compute, StructuralOil.zeroDemandParams])
    _ (List.get_mem _ 0 (by rw [oil_run_length, numRows_1_1]; norm_num))

theorem frac_nonneg_le_one {x d : ℚ} (hx : 0 ≤ x) (hxd : x ≤ d) :
    0 ≤ x / d ∧ x / d ≤ 1 :=
  ⟨div_nonneg hx (hx.trans hxd), div_le_one_of_le hxd (hx.trans hxd)⟩

theorem agent_range_facts (p : AiAgent.Params) (hP : AiAgent.InRange p) :
    0 < p.potential_market ∧ 100 ≤ p.potential_market ∧
    0 < p.compute_per_user ∧ 0 < p.compute_cost_per_unit ∧
    p.compute_cost_per_unit ≤ 2 ∧ 0 < p.innovation_rate ∧
    p.innovation_rate ≤ 1/20 ∧ 0 ≤ p.imitation_rate ∧ p.imitation_rate ≤ 3/5 ∧
    0 ≤ p.base_compute_growth ∧ 0 < p.revenue_per_user ∧ 50 ≤ p.revenue_per_user ∧
    0 < p.reinvestment_fraction ∧ 1/10 ≤ p.reinvestment_fraction ∧
    0 ≤ p.base_capability_growth ∧ 1 ≤ p.capability_threshold ∧
    0 ≤ p.depreciation_rate ∧ p.depreciation_rate ≤ 3/10 := by
  obtain ⟨h1, h2, h3, h4, h5, h6, h7, h8, h9, h10, h11, h12, h13, h14, h15,
    h16, h17, h18, h19, h20, h21, h22, h23, h24⟩ := hP
  refine ⟨?_, ?_, ?_, ?_, ?_, ?_, ?_, ?_, ?_, ?_, ?_, ?_, ?_, ?_, ?_, ?_, ?_, ?_⟩ <;>
    linarith

theorem agent_new_adoptions (p : AiAgent.Params) (s : AiAgent.State) :
    (AiAgent.compute p s).new_adoptions =
      (p.innovation_rate + p.imitation_rate * (s.agent_users / p.potential_market)) *
        (p.potential_market - s.agent_users) *
        (s.task_horizon / (s.task_horizon + p.capability_threshold)) *
        (s.gpu_compute / (s.agent_users * p.compute_per_user + s.gpu_compute)) := rfl

theorem agent_compute_investment (p : AiAgent.Params) (s : AiAgent.State) :
    (AiAgent.compute p s).compute_investment =
      p.base_compute_growth +
        s.agent_users * p.revenue_per_user / 1000 * p.reinvestment_fraction /
          p.compute_cost_per_unit := rfl

theorem agent_update_users (p : AiAgent.Params) (dt : ℚ) (s : AiAgent.State)
    (k : AiAgent.Computed) :
    (AiAgent.update p dt s k).agent_users =
      max (s.agent_users + dt * k.new_adoptions) 0 := rfl

theorem agent_update_gpu (p : AiAgent.Params) (dt : ℚ) (s : AiAgent.State)
    (k : AiAgent.Computed) :
    (AiAgent.update p dt s k).gpu_compute =
      max (s.gpu_compute + dt * (k.compute_investment - k.compute_depreciation)) 0 := rfl

theorem agent_inv_investment_nonneg (p : AiAgent.Params) (hP : AiAgent.InRange p)
    (s : AiAgent.State) (hu : 0 ≤ s.agent_users) :
    0 ≤ (AiAgent.compute p s).compute_investment := by
  obtain ⟨hP0, hP100, hcpu, hccu, hccu2, hinn, hinn2, himit, himit2, hbc,
    hrev, hrev50, hre, hre10, hbcg, hct, hdep, hdep3⟩ := agent_range_facts p hP
  rw [agent_compute_investment]
  have : 0 ≤ s.agent_users * p.revenue_per_user / 1000 * p.reinvestment_fraction /
      p.compute_cost_per_unit := by
    apply div_nonneg _ hccu.le
    apply mul_nonneg _ hre.le
    apply div_nonneg _ (by norm_num)
    exact mul_nonneg hu hrev.le
  linarith

theorem agent_inv_init (p : AiAgent.Params) (hP : AiAgent.InRange p) :
    AiAgent.Inv p AiAgent.init := by
  obtain ⟨hP0, hP100, _⟩ := agent_range_facts p hP
  refine ⟨le_refl _, by norm_num [AiAgent.init], by norm_num [AiAgent.init], by norm_num [AiAgent.init], ?_⟩
  show (50:ℚ) ≤ 3/2 * p.potential_market
  linarith

theorem agent_overshoot_poly (x P u inn imit : ℚ) (hx0 : 0 ≤ x) (hx1 : x ≤ 1)
    (hxu : x * P = u) (hP : 0 < P) (hinn : 0 ≤ inn) (hinn2 : inn ≤ 1/20)
    (himit : 0 ≤ imit) (himit2 : imit ≤ 3/5) (hu : u ≤ P) :
    u + 5 * ((inn + imit * x) * (P - u)) ≤ 3/2 * P := by
  subst hxu
  have hPu : 0 ≤ P - x * P := by nlinarith
  have h1 : inn + imit * x ≤ 1/20 + 3/5 * x := by nlinarith
  have h2 : 5 * ((inn + imit * x) * (P - x * P)) ≤
      5 * ((1/20 + 3/5 * x) * (P - x * P)) := by
    have := mul_le_mul_of_nonneg_right h1 hPu
    linarith
  have h3 : x * P + 5 * ((1/20 + 3/5 * x) * (P - x * P)) ≤ 3/2 * P := by
    nlinarith [mul_nonneg (sq_nonneg (x - 5/8)) hP.le]
  linarith

theorem agent_inv_step (p : AiAgent.Params) (dt : ℚ) (hP : AiAgent.InRange p)
    (hdt0 : 0 < dt) (hdt5 : dt ≤ 5) (s : AiAgent.State) (hs : AiAgent.Inv p s) :
    AiAgent.Inv p (AiAgent.update p dt s (AiAgent.compute p s)) := by
  obtain ⟨hP0, hP100, hcpu, hccu, hccu2, hinn, hinn2, himit, himit2, hbc,
    hrev, hrev50, hre, hre10, hbcg, hct, hdep, hdep3⟩ := agent_range_facts p hP
  obtain ⟨hth, hu, hsr, hg, huP⟩ := hs
  have hcr := frac_nonneg_le_one (x := s.task_horizon)
    (d := s.task_horizon + p.capability_threshold) (by linarith) (by linarith)
  have hca := frac_nonneg_le_one (x := s.gpu_compute)
    (d := s.agent_users * p.compute_per_user + s.gpu_compute) hg
    (by nlinarith)
  refine ⟨?_, le_max_right _ _, le_max_right _ _, le_max_right _ _, ?_⟩
  · show 1 ≤ max (s.task_horizon +
      dt * (s.task_horizon * p.base_capability_growth * s.gpu_compute / 100)) 0
    have hcg : 0 ≤ s.task_horizon * p.base_capability_growth * s.gpu_compute / 100 := by
      apply div_nonneg _ (by norm_num)
      exact mul_nonneg (mul_nonneg (by linarith) hbcg) hg
    have : (1:ℚ) ≤ s.task_horizon +
        dt * (s.task_horizon * p.base_capability_growth * s.gpu_compute / 100) := by
      nlinarith
    exact le_trans this (le_max_left _ _)
  · rw [agent_update_users, agent_new_adoptions]
    apply max_le _ (by linarith)
    rcases le_or_lt s.agent_users p.potential_market with hcase | hcase
    · have haf := frac_nonneg_le_one (x := s.agent_users) (d := p.potential_market) hu hcase
      set af := s.agent_users / p.potential_market with haf_def
      set cr := s.task_horizon / (s.task_horizon + p.capability_threshold) with hcr_def
      set ca := s.gpu_compute / (s.agent_users * p.compute_per_user + s.gpu_compute) with hca_def
      have hc1 : 0 ≤ p.innovation_rate + p.imitation_rate * af :=
        add_nonneg hinn.le (mul_nonneg himit haf.1)
      have hbase : 0 ≤ (p.innovation_rate + p.imitation_rate * af) *
          (p.potential_market - s.agent_users) :=
        mul_nonneg hc1 (by linarith)
      have hNA1 : (p.innovation_rate + p.imitation_rate * af) *
            (p.potential_market - s.agent_users) * cr * ca ≤
          (p.innovation_rate + p.imitation_rate * af) *
            (p.potential_market - s.agent_users) := by
        calc (p.innovation_rate + p.imitation_rate * af) *
              (p.potential_market - s.agent_users) * cr * ca
            ≤ (p.innovation_rate + p.imitation_rate * af) *
              (p.potential_market - s.agent_users) * cr * 1 := by
              exact mul_le_mul_of_nonneg_left hca.2 (mul_nonneg hbase hcr.1)
          _ = (p.innovation_rate + p.imitation_rate * af) *
              (p.potential_market - s.agent_users) * cr := by ring
          _ ≤ (p.innovation_rate + p.imitation_rate * af) *
              (p.potential_market - s.agent_users) * 1 := by
              exact mul_le_mul_of_nonneg_left hcr.2 hbase
          _ = _ := by ring
      have hafP : af * p.potential_market = s.agent_users :=
        div_mul_cancel₀ _ hP0.ne'
      have hdtNA : dt * ((p.innovation_rate + p.imitation_rate * af) *
            (p.potential_market - s.agent_users) * cr * ca) ≤
          5 * ((p.innovation_rate + p.imitation_rate * af) *
            (p.potential_market - s.agent_users)) := by
        have h1 : dt * ((p.innovation_rate + p.imitation_rate * af) *
              (p.potential_market - s.agent_users) * cr * ca) ≤
            dt * ((p.innovation_rate + p.imitation_rate * af) *
              (p.potential_market - s.agent_users)) :=
          mul_le_mul_of_nonneg_left hNA1 hdt0.le
        have h2 : dt * ((p.innovation_rate + p.imitation_rate * af) *
              (p.potential_market - s.agent_users)) ≤
            5 * ((p.innovation_rate + p.imitation_rate * af) *
              (p.potential_market - s.agent_users)) :=
          mul_le_mul_of_nonneg_right hdt5 hbase
        linarith
    -- remaining: u + 5*base ≤ 3/2 P
      have hfin := agent_overshoot_poly af p.potential_market s.agent_users
        p.innovation_rate p.imitation_rate haf.1 haf.2 hafP hP0 hinn.le hinn2
        himit himit2 hcase
      linarith
    · have hNA_np : (p.innovation_rate + p.imitation_rate *
            (s.agent_users / p.potential_market)) *
            (p.potential_market - s.agent_users) *
            (s.task_horizon / (s.task_horizon + p.capability_threshold)) *
            (s.gpu_compute / (s.agent_users * p.compute_per_user + s.gpu_compute)) ≤ 0 := by
        have haf := frac_nonneg_le_one (x := s.agent_users) (d := s.agent_users) hu le_rfl
        have hafn : 0 ≤ s.agent_users / p.potential_market :=
          div_nonneg hu hP0.le
        have hc1 : 0 ≤ p.innovation_rate + p.imitation_rate *
            (s.agent_users / p.potential_market) :=
          add_nonneg hinn.le (mul_nonneg himit hafn)
        have h2 : (p.innovation_rate + p.imitation_rate *
              (s.agent_users / p.potential_market)) *
            (p.potential_market - s.agent_users) ≤ 0 :=
          mul_nonpos_of_nonneg_of_nonpos hc1 (by linarith)
        have h3 : (p.innovation_rate + p.imitation_rate *
              (s.agent_users / p.potential_market)) *
            (p.potential_market - s.agent_users) *
            (s.task_horizon / (s.task_horizon + p.capability_threshold)) ≤ 0 :=
          mul_nonpos_of_nonpos_of_nonneg h2 hcr.1
        exact mul_nonpos_of_nonpos_of_nonneg h3 hca.1
      have : dt * ((p.innovation_rate + p.imitation_rate *
            (s.agent_users / p.potential_market)) *
            (p.potential_market - s.agent_users) *
            (s.task_horizon / (s.task_horizon + p.capability_threshold)) *
            (s.gpu_compute / (s.agent_users * p.compute_per_user + s.gpu_compute))) ≤ 0 :=
        mul_nonpos_of_nonneg_of_nonpos hdt0.le hNA_np
      linarith

set_option maxHeartbeats 1000000 in
theorem agent_kill_shape (p : AiAgent.Params) (dt : ℚ) (hP : AiAgent.InRange p)
    (hdt0 : 0 < dt) (s : AiAgent.State) (hs : AiAgent.Inv p s)
    (hB : 0 < s.agent_users ∨ 0 < s.gpu_compute)
    (hu0 : (AiAgent.update p dt s (AiAgent.compute p s)).agent_users = 0)
    (hg0 : (AiAgent.update p dt s (AiAgent.compute p s)).gpu_compute = 0) :
    p.potential_market < s.agent_users ∧ 1 < dt * p.depreciation_rate ∧
    dt * (AiAgent.compute p s).compute_investment ≤
      (dt * p.depreciation_rate - 1) * s.gpu_compute := by
  obtain ⟨hP0, hP100, hcpu, hccu, hccu2, hinn, hinn2, himit, himit2, hbc,
    hrev, hrev50, hre, hre10, hbcg, hct, hdep, hdep3⟩ := agent_range_facts p hP
  obtain ⟨hth, hu, hsr, hg, huP⟩ := hs
  have hcr := frac_nonneg_le_one (x := s.task_horizon)
    (d := s.task_horizon + p.capability_threshold) (by linarith) (by linarith)
  have hca := frac_nonneg_le_one (x := s.gpu_compute)
    (d := s.agent_users * p.compute_per_user + s.gpu_compute) hg (by nlinarith)
  -- from the zero clamps, the pre-clamp values are nonpositive
  rw [agent_update_users, agent_new_adoptions] at hu0
  have hu0' : s.agent_users +
      dt * ((p.innovation_rate + p.imitation_rate * (s.agent_users / p.potential_market)) *
        (p.potential_market - s.agent_users) *
        (s.task_horizon / (s.task_horizon + p.capability_threshold)) *
        (s.gpu_compute / (s.agent_users * p.compute_per_user + s.gpu_compute))) ≤ 0 :=
    max_eq_right_iff.mp hu0
  rw [agent_update_gpu] at hg0
  have hg0' : s.gpu_compute + dt * ((AiAgent.compute p s).compute_investment -
      (AiAgent.compute p s).compute_depreciation) ≤ 0 := max_eq_right_iff.mp hg0
  -- step 1: agent_users is strictly positive at s
  have hupos : 0 < s.agent_users := by
    rcases lt_or_eq_of_le hu with h | h
    · exact h
    · exfalso
      have hu' : s.agent_users = 0 := h.symm
      have hgpos : 0 < s.gpu_compute := by
        rcases hB with hB | hB
        · exact absurd hB (by rw [hu']; norm_num)
        · exact hB
      rw [hu'] at hu0'
      have hca1 : s.gpu_compute / ((0:ℚ) * p.compute_per_user + s.gpu_compute) = 1 := by
        rw [zero_mul, zero_add, div_self hgpos.ne']
      rw [hca1] at hu0'
      have hcrpos : 0 < s.task_horizon / (s.task_horizon + p.capability_threshold) :=
        div_pos (by linarith) (by linarith)
      have : 0 < dt * ((p.innovation_rate + p.imitation_rate * (0 / p.potential_market)) *
          (p.potential_market - 0) *
          (s.task_horizon / (s.task_horizon + p.capability_threshold)) * 1) := by
        rw [zero_div, mul_zero, add_zero, sub_zero, mul_one]
        exact mul_pos hdt0 (mul_pos (mul_pos hinn hP0) hcrpos)
      linarith
  -- step 2: market overshoot
  have hPu : p.potential_market < s.agent_users := by
    by_contra hle
    push_neg at hle
    have hafn : 0 ≤ s.agent_users / p.potential_market := div_nonneg hu hP0.le
    have hNAn : 0 ≤ (p.innovation_rate + p.imitation_rate *
        (s.agent_users / p.potential_market)) *
        (p.potential_market - s.agent_users) *
        (s.task_horizon / (s.task_horizon + p.capability_threshold)) *
        (s.gpu_compute / (s.agent_users * p.compute_per_user + s.gpu_compute)) := by
      apply mul_nonneg _ hca.1
      apply mul_nonneg _ hcr.1
      exact mul_nonneg (add_nonneg hinn.le (mul_nonneg himit hafn)) (by linarith)
    nlinarith [mul_nonneg hdt0.le hNAn]
  -- step 3: the gpu clamp forces overdamped depreciation
  have hinv : 0 ≤ (AiAgent.compute p s).compute_investment :=
    agent_inv_investment_nonneg p hP s hu
  have hinvpos : 0 < (AiAgent.compute p s).compute_investment := by
    rw [agent_compute_investment]
    have : 0 < s.agent_users * p.revenue_per_user / 1000 * p.reinvestment_fraction /
        p.compute_cost_per_unit := by
      apply div_pos _ hccu
      apply mul_pos _ hre
      apply div_pos _ (by norm_num)
      exact mul_pos hupos hrev
    linarith
  have hdepflow : (AiAgent.compute p s).compute_depreciation =
      s.gpu_compute * p.depreciation_rate := rfl
  rw [hdepflow] at hg0'
  clear hu0'
  have hdd : 1 < dt * p.depreciation_rate := by
    by_contra hle
    push_neg at hle
    have key : 0 ≤ s.gpu_compute * (1 - dt * p.depreciation_rate) :=
      mul_nonneg hg (by linarith)
    nlinarith [mul_pos hdt0 hinvpos]
  refine ⟨hPu, hdd, ?_⟩
  nlinarith

theorem agent_g_bound (p : AiAgent.Params) (dt : ℚ) (hP : AiAgent.InRange p)
    (hdt0 : 0 < dt) (hdd : 1 < dt * p.depreciation_rate)
    (q : AiAgent.State) (hq : AiAgent.Inv p q) :
    (AiAgent.update p dt q (AiAgent.compute p q)).gpu_compute ≤
      dt * (AiAgent.compute p q).compute_investment := by
  obtain ⟨hth, hu, hsr, hg, huP⟩ := hq
  have hinv : 0 ≤ (AiAgent.compute p q).compute_investment :=
    agent_inv_investment_nonneg p hP q hu
  rw [agent_update_gpu]
  apply max_le _ (mul_nonneg hdt0.le hinv)
  have hdepflow : (AiAgent.compute p q).compute_depreciation =
      q.gpu_compute * p.depreciation_rate := rfl
  rw [hdepflow]
  nlinarith

set_option maxHeartbeats 1000000 in
theorem agent_no_kill (p : AiAgent.Params) (dt : ℚ) (hP : AiAgent.InRange p)
    (hdt0 : 0 < dt) (hdt5 : dt ≤ 5) (q : AiAgent.State) (hq : AiAgent.Inv p q)
    (hs : AiAgent.Inv p (AiAgent.update p dt q (AiAgent.compute p q)))
    (hBs : 0 < (AiAgent.update p dt q (AiAgent.compute p q)).agent_users ∨
      0 < (AiAgent.update p dt q (AiAgent.compute p q)).gpu_compute) :
    0 < (AiAgent.update p dt (AiAgent.update p dt q (AiAgent.compute p q))
        (AiAgent.compute p (AiAgent.update p dt q (AiAgent.compute p q)))).agent_users ∨
    0 < (AiAgent.update p dt (AiAgent.update p dt q (AiAgent.compute p q))
        (AiAgent.compute p (AiAgent.update p dt q (AiAgent.compute p q)))).gpu_compute := by
  set s := AiAgent.update p dt q (AiAgent.compute p q) with hs_def
  by_contra hcon
  push_neg at hcon
  obtain ⟨hu2, hg2⟩ := hcon
  have hu0 : (AiAgent.update p dt s (AiAgent.compute p s)).agent_users = 0 :=
    le_antisymm hu2 (le_max_right _ _)
  have hg0 : (AiAgent.update p dt s (AiAgent.compute p s)).gpu_compute = 0 :=
    le_antisymm hg2 (le_max_right _ _)
  obtain ⟨hPu, hdd, hchain⟩ := agent_kill_shape p dt hP hdt0 s hs hBs hu0 hg0
  have hgbound := agent_g_bound p dt hP hdt0 hdd q hq
  rw [← hs_def] at hgbound
  -- ranges and invariant components we need
  obtain ⟨hP0, hP100, hcpu, hccu, hccu2, hinn, hinn2, himit, himit2, hbc,
    hrev, hrev50, hre, hre10, hbcg, hct, hdep, hdep3⟩ := agent_range_facts p hP
  have hqu : 0 ≤ q.agent_users := hq.2.1
  have hquP : q.agent_users ≤ 3/2 * p.potential_market := hq.2.2.2.2
  have hsg : 0 ≤ s.gpu_compute := hs.2.2.2.1
  have hinvq : 0 ≤ (AiAgent.compute p q).compute_investment :=
    agent_inv_investment_nonneg p hP q hqu
  have hinvs : 0 ≤ (AiAgent.compute p s).compute_investment :=
    agent_inv_investment_nonneg p hP s hs.2.1
  -- dt * dep - 1 ≤ 1/2
  have hddhalf : dt * p.depreciation_rate - 1 ≤ 1/2 := by nlinarith
  -- chain: dt * INV(s) ≤ (1/2) * (dt * INV(q))
  have hstep1 : dt * (AiAgent.compute p s).compute_investment ≤
      (dt * p.depreciation_rate - 1) * (dt * (AiAgent.compute p q).compute_investment) := by
    calc dt * (AiAgent.compute p s).compute_investment ≤
        (dt * p.depreciation_rate - 1) * s.gpu_compute := hchain
      _ ≤ (dt * p.depreciation_rate - 1) * (dt * (AiAgent.compute p q).compute_investment) :=
        mul_le_mul_of_nonneg_left hgbound (by linarith)
  have hstep2 : dt * (AiAgent.compute p s).compute_investment ≤
      (1/2) * (dt * (AiAgent.compute p q).compute_investment) := by
    have := mul_le_mul_of_nonneg_right hddhalf (mul_nonneg hdt0.le hinvq)
    linarith
  have hhalf : (AiAgent.compute p s).compute_investment ≤
      (AiAgent.compute p q).compute_investment / 2 := by
    nlinarith
  -- expand the investments
  rw [agent_compute_investment, agent_compute_investment] at hhalf
  -- T x = x * K with K > 0
  have hK : 0 < p.revenue_per_user * p.reinvestment_fraction /
      (1000 * p.compute_cost_per_unit) :=
    div_pos (mul_pos hrev hre) (by linarith)
  have hTq : q.agent_users * p.revenue_per_user / 1000 * p.reinvestment_fraction /
      p.compute_cost_per_unit =
      q.agent_users * (p.revenue_per_user * p.reinvestment_fraction /
        (1000 * p.compute_cost_per_unit)) := by
    field_simp
    ring
  have hTs : s.agent_users * p.revenue_per_user / 1000 * p.reinvestment_fraction /
      p.compute_cost_per_unit =
      s.agent_users * (p.revenue_per_user * p.reinvestment_fraction /
        (1000 * p.compute_cost_per_unit)) := by
    field_simp
    ring
  rw [hTq, hTs] at hhalf
  -- conclude u_q ≥ 2 u_s, contradicting the invariant bound
  have hZ : 0 ≤ (q.agent_users - 2 * s.agent_users) *
      (p.revenue_per_user * p.reinvestment_fraction /
        (1000 * p.compute_cost_per_unit)) := by nlinarith
  have huq : 2 * s.agent_users ≤ q.agent_users := by
    by_contra hlt
    push_neg at hlt
    have : (q.agent_users - 2 * s.agent_users) *
        (p.revenue_per_user * p.reinvestment_fraction /
          (1000 * p.compute_cost_per_unit)) < 0 :=
      mul_neg_of_neg_of_pos (by linarith) hK
    linarith
  linarith

theorem agent_users_pos_step (p : AiAgent.Params) (dt : ℚ) (hP : AiAgent.InRange p)
    (hdt0 : 0 < dt) (s : AiAgent.State) (hs : AiAgent.Inv p s)
    (hupos : 0 < s.agent_users) (hule : s.agent_users ≤ p.potential_market) :
    0 < (AiAgent.update p dt s (AiAgent.compute p s)).agent_users := by
  obtain ⟨hP0, hP100, hcpu, hccu, hccu2, hinn, hinn2, himit, himit2, hbc,
    hrev, hrev50, hre, hre10, hbcg, hct, hdep, hdep3⟩ := agent_range_facts p hP
  obtain ⟨hth, hu, hsr, hg, huP⟩ := hs
  have hcr := frac_nonneg_le_one (x := s.task_horizon)
    (d := s.task_horizon + p.capability_threshold) (by linarith) (by linarith)
  have hca := frac_nonneg_le_one (x := s.gpu_compute)
    (d := s.agent_users * p.compute_per_user + s.gpu_compute) hg (by nlinarith)
  rw [agent_update_users, agent_new_adoptions]
  have hafn : 0 ≤ s.agent_users / p.potential_market := div_nonneg hu hP0.le
  have hNAn : 0 ≤ (p.innovation_rate + p.imitation_rate *
      (s.agent_users / p.potential_market)) *
      (p.potential_market - s.agent_users) *
      (s.task_horizon / (s.task_horizon + p.capability_threshold)) *
      (s.gpu_compute / (s.agent_users * p.compute_per_user + s.gpu_compute)) := by
    apply mul_nonneg _ hca.1
    apply mul_nonneg _ hcr.1
    exact mul_nonneg (add_nonneg hinn.le (mul_nonneg himit hafn)) (by linarith)
  have : 0 < s.agent_users + dt * ((p.innovation_rate + p.imitation_rate *
      (s.agent_users / p.potential_market)) *
      (p.potential_market - s.agent_users) *
      (s.task_horizon / (s.task_horizon + p.capability_threshold)) *
      (s.gpu_compute / (s.agent_users * p.compute_per_user + s.gpu_compute))) := by
    nlinarith [mul_nonneg hdt0.le hNAn]
  exact lt_max_iff.mpr (Or.inl this)

/-- Along every `ai_agent_disruption` trajectory from the initial state (for
slider-range parameters and `0 < dt ≤ 5`), every state satisfies the
invariant and has `agent_users > 0` or `gpu_compute > 0`. -/
theorem agent_traj (p : AiAgent.Params) (dt : ℚ) (hP : AiAgent.InRange p)
    (hdt0 : 0 < dt) (hdt5 : dt ≤ 5) :
    ∀ i : ℕ,
      (AiAgent.Inv p ((SD.stepf (AiAgent.compute p) (AiAgent.update p dt))^[i] AiAgent.init) ∧
        (0 < ((SD.stepf (AiAgent.compute p) (AiAgent.update p dt))^[i] AiAgent.init).agent_users ∨
         0 < ((SD.stepf (AiAgent.compute p) (AiAgent.update p dt))^[i] AiAgent.init).gpu_compute)) ∧
      (AiAgent.Inv p ((SD.stepf (AiAgent.compute p) (AiAgent.update p dt))^[i+1] AiAgent.init) ∧
        (0 < ((SD.stepf (AiAgent.compute p) (AiAgent.update p dt))^[i+1] AiAgent.init).agent_users ∨
         0 < ((SD.stepf (AiAgent.compute p) (AiAgent.update p dt))^[i+1] AiAgent.init).gpu_compute)) := by
  obtain ⟨hP0, hP100, _⟩ := agent_range_facts p hP
  intro i
  induction i with
  | zero =>
      have h0 : AiAgent.Inv p AiAgent.init := agent_inv_init p hP
      have h1 : AiAgent.Inv p ((SD.stepf (AiAgent.compute p) (AiAgent.update p dt))^[1] AiAgent.init) := by
        rw [Function.iterate_one]
        exact agent_inv_step p dt hP hdt0 hdt5 _ h0
      refine ⟨⟨by simpa using h0, Or.inl (by norm_num [AiAgent.init])⟩, h1, Or.inl ?_⟩
      rw [Function.iterate_one]
      show 0 < (AiAgent.update p dt AiAgent.init (AiAgent.compute p AiAgent.init)).agent_users
      apply agent_users_pos_step p dt hP hdt0 _ h0
      · norm_num [AiAgent.init]
      · show (50:ℚ) ≤ p.potential_market
        linarith
  | succ i ih =>
      obtain ⟨⟨hIq, hBq⟩, hIs, hBs⟩ := ih
      refine ⟨⟨hIs, hBs⟩, ?_, ?_⟩
      · rw [Function.iterate_succ_apply']
        exact agent_inv_step p dt hP hdt0 hdt5 _ hIs
      · rw [Function.iterate_succ_apply']
        rw [Function.iterate_succ_apply'] at hIs hBs
        have := agent_no_kill p dt hP hdt0 hdt5
          ((SD.stepf (AiAgent.compute p) (AiAgent.update p dt))^[i] AiAgent.init)
          hIq hIs hBs
        rw [Function.iterate_succ_apply']
        exact this

theorem agent_avail_pos (p : AiAgent.Params) (dt tEnd : ℚ) (hP : AiAgent.InRange p)
    (hdt0 : 0 < dt) (hdt5 : dt ≤ 5) :
    ∀ r ∈ AiAgent.run p dt tEnd,
      AiAgent.Inv p r.2.1 ∧
      0 < r.2.1.agent_users * p.compute_per_user + r.2.1.gpu_compute := by
  obtain ⟨hP0, hP100, hcpu, _⟩ := agent_range_facts p hP
  intro r hr
  obtain ⟨⟨i, hi⟩, hget⟩ := List.mem_iff_get.mp hr
  have hgeti := agent_run_get p dt tEnd i hi
  have hstate : r.2.1 = (SD.stepf (AiAgent.compute p) (AiAgent.update p dt))^[i] AiAgent.init := by
    rw [← hget, hgeti]
  obtain ⟨⟨hInv, hB⟩, _⟩ := agent_traj p dt hP hdt0 hdt5 i
  rw [← hstate] at hInv hB
  refine ⟨hInv, ?_⟩
  rcases hB with hB | hB
  · have : 0 < r.2.1.agent_users * p.compute_per_user := mul_pos hB hcpu
    have := hInv.2.2.2.1
    linarith
  · have : 0 ≤ r.2.1.agent_users * p.compute_per_user :=
      mul_nonneg hInv.2.1 hcpu.le
    linarith

/-- **C5 counterexample**: in `structural_oil_supply_shortage` the division
`gap_ratio = supply_demand_gap / oil_supply_capacity` is unguarded, and with
the admissible inputs `natural_decline_fraction = 1`,
`investment_response_factor = 0`, `dt = 5`, `t_end = 10` (all within their
slider/input ranges) the denominator `oil_supply_capacity` is exactly 0 at
the second loop iteration: in Python this run raises `ZeroDivisionError`
mid-run. -/
theorem claim_C5_counterexample :
    StructuralOil.InRange StructuralOil.crashParams ∧
    ((StructuralOil.run StructuralOil.crashParams 5 10).get
      ⟨1, by rw [oil_run_length, numRows_5_10]; norm_num⟩).2.1.oil_supply_capacity = 0 := by
  constructor
  · norm_num [StructuralOil.InRange, StructuralOil.crashParams]
  · rw [oil_run_get]
    simp only [Function.iterate_one, SD.stepf]
    norm_num [StructuralOil.compute, StructuralOil.update, StructuralOil.crashParams,
      StructuralOil.init]

/-- **C5** (as amended).  In every app except
`structural_oil_supply_shortage`, every division in the computed-variable
expressions has a denominator that is either guarded internally via
`max(denominator, 1e-6)`, or a positive constant, or a slider parameter
bounded away from zero by its range, or (in `ai_agent_disruption`) a state
expression provably positive at every reachable state for slider-range
parameters and `1/10 ≤ dt ≤ 5`; in `structural_oil_supply_shortage` the
divisions in `gap_ratio`, `oil_price_effect_on_evs` and
`normalized_investment_signal` are unguarded and their denominators
(`oil_supply_capacity`, `reference_oil_price`, `breakeven_price`) can be
exactly zero for admissible inputs (see the counterexample), so a
division by zero can occur mid-run there. -/
theorem claim_C5 :
    (∀ (p : AiAgent.Params) (dt tEnd : ℚ), AiAgent.InRange p →
      1/10 ≤ dt → dt ≤ 5 → ∀ r ∈ AiAgent.run p dt tEnd,
      (0:ℚ) < 100 ∧ (0:ℚ) < 1000 ∧ 0 < p.potential_market ∧
      0 < p.compute_cost_per_unit ∧
      0 < r.2.1.task_horizon + p.capability_threshold ∧
      0 < r.2.1.agent_users * p.compute_per_user + r.2.1.gpu_compute) ∧
    (∀ (p : AiCapex.Params) (dt tEnd : ℚ), AiCapex.InRange p →
      ∀ r ∈ AiCapex.run p dt tEnd,
      0 < p.reference_valuation ∧ 0 < p.deployment_lag ∧
      0 < p.infrastructure_life ∧ 0 < p.base_tech_workforce ∧
      0 < max r.2.1.ai_infrastructure (1/1000000) ∧
      0 < max r.2.2.ai_revenue (1/1000000)) ∧
    (∀ (p : Silver.Params) (dt tEnd : ℚ), Silver.InRange p →
      ∀ r ∈ Silver.run p dt tEnd,
      0 < p.reference_inventory ∧ 0 < max r.2.1.silver_price (1/1000000)) ∧
    (∀ (p : SodiumBattery.Params) (dt tEnd : ℚ), SodiumBattery.InRange p →
      ∀ r ∈ SodiumBattery.run p dt tEnd,
      0 < p.battery_lifetime ∧ 0 < p.discharge_hours ∧ (0:ℚ) < 1500 ∧
      (0:ℚ) < 2000 ∧ 0 < max r.2.1.unit_cost (1/1000000) ∧
      0 < max r.2.1.total_demand (1/1000000)) ∧
    (∀ (p : SolarAi.Params) (dt tEnd : ℚ), SolarAi.InRange p →
      ∀ r ∈ SolarAi.run p dt tEnd,
      0 < p.panel_lifetime ∧ 0 < p.storage_unit_cost ∧ 0 < p.battery_lifetime ∧
      0 < p.discharge_hours ∧ 0 < max r.2.1.solar_cost (1/1000000) ∧
      0 < max r.2.1.solar_capacity (1/1000000) ∧
      0 < max r.2.1.data_center_demand (1/1000000)) := by
  have hmax : ∀ x : ℚ, (0:ℚ) < max x (1/1000000) :=
    fun x => lt_of_lt_of_le (by norm_num) (le_max_right _ _)
  refine ⟨?_, ?_, ?_, ?_, ?_⟩
  · intro p dt tEnd hP hdt10 hdt5 r hr
    have hdt0 : 0 < dt := lt_of_lt_of_le (by norm_num) hdt10
    obtain ⟨hInv, hpos⟩ := agent_avail_pos p dt tEnd hP hdt0 hdt5 r hr
    obtain ⟨hP0, hP100, hcpu, hccu, _⟩ := agent_range_facts p hP
    have hct : 1 ≤ p.capability_threshold := by
      obtain ⟨_, _, _, _, h, _⟩ := hP
      exact h
    refine ⟨by norm_num, by norm_num, hP0, hccu, ?_, hpos⟩
    have := hInv.1
    linarith
  · intro p dt tEnd hP r hr
    obtain ⟨h1, h2, h3, h4, h5, h6, h7, h8, h9, h10, h11, h12, h13, h14,
      h15, h16, h17, h18, h19, h20⟩ := hP
    exact ⟨by linarith, by linarith, by linarith, by linarith, hmax _, hmax _⟩
  · intro p dt tEnd hP r hr
    obtain ⟨h1, h2, h3, h4, h5, h6, h7, h8, h9, h10, h11, h12, h13, h14,
      h15, h16, h17, h18, h19, h20, h21, h22, h23, h24⟩ := hP
    exact ⟨by linarith, hmax _⟩
  · intro p dt tEnd hP r hr
    obtain ⟨h1, h2, h3, h4, h5, h6, h7, h8, h9, h10, h11, h12, h13, h14,
      h15, h16, h17, h18, h19, h20, h21, h22⟩ := hP
    exact ⟨by linarith, by linarith, by norm_num, by norm_num, hmax _, hmax _⟩
  · intro p dt tEnd hP r hr
    obtain ⟨h1, h2, h3, h4, h5, h6, h7, h8, h9, h10, h11, h12, h13, h14,
      h15, h16, h17, h18, h19, h20, h21, h22⟩ := hP
    exact ⟨by linarith, by linarith, by linarith, by linarith, hmax _, hmax _, hmax _⟩

/-- **C5 witness**: the `ai_agent_disruption` defaults at `dt = 1`,
`t_end = 1`, row 0: the `compute_availability` denominator is positive. -/
theorem claim_C5_witness :
    0 < ((AiAgent.run AiAgent.defaults 1 1).get
        ⟨0, by rw [agent_run_length, numRows_1_1]; norm_num⟩).2.1.agent_users *
          AiAgent.defaults.compute_per_user +
        ((AiAgent.run AiAgent.defaults 1 1).get
        ⟨0, by rw [agent_run_length, numRows_1_1]; norm_num⟩).2.1.gpu_compute :=
  (claim_C5.1 AiAgent.defaults 1 1
    (by norm_num [AiAgent.InRange, AiAgent.defaults]) (by norm_num) (by norm_num)
    _ (List.get_mem _ 0 (by rw [agent_run_length, numRows_1_1]; norm_num))).2.2.2.2.2
